import Mathlib

/-!
Shallow embedding of the FinWise-Teen analysis / risk pipeline
(src/src/trade/builder.py, src/src/risk/governor.py, src/src/models/risk.py,
src/src/options/engine.py, src/src/confluence/engine.py,
src/src/ingestion/data_buffer.py, src/src/api/routes.py,
src/src/models/market_data.py, src/src/models/trade.py).

Python floats are modelled as exact rationals; Python round(x, n)
(round half to even) and int(x) (truncation toward zero) are modelled
explicitly.  Strings carried only for display (ids, reasoning text,
symbols) are dropped; lists of reason strings become lists of reason tags.
-/

namespace FinWise

/-! ## Python numeric helpers -/

/-- Python round-half-to-even of a rational to an integer. -/
def rhe (q : ℚ) : ℤ :=
  if q - ⌊q⌋ < 1/2 then ⌊q⌋
  else if 1/2 < q - ⌊q⌋ then ⌊q⌋ + 1
  else if ⌊q⌋ % 2 = 0 then ⌊q⌋ else ⌊q⌋ + 1

/-- Python round(q, 2). -/
def round2 (q : ℚ) : ℚ := (rhe (q * 100) : ℚ) / 100

/-- Python round(q, 3). -/
def round3 (q : ℚ) : ℚ := (rhe (q * 1000) : ℚ) / 1000

/-- Python round(q, 1). -/
def round1 (q : ℚ) : ℚ := (rhe (q * 10) : ℚ) / 10

/-- Python int(q): truncation toward zero. -/
def pytrunc (q : ℚ) : ℤ := if 0 ≤ q then ⌊q⌋ else -⌊-q⌋

lemma le_rhe (q : ℚ) : ⌊q⌋ ≤ rhe q := by
  unfold rhe; split_ifs <;> omega

lemma rhe_le (q : ℚ) : rhe q ≤ ⌊q⌋ + 1 := by
  unfold rhe; split_ifs <;> omega

lemma rhe_mono {a b : ℚ} (h : a ≤ b) : rhe a ≤ rhe b := by
  have hf : ⌊a⌋ ≤ ⌊b⌋ := Int.floor_le_floor h
  rcases lt_or_eq_of_le hf with hlt | heq
  · calc rhe a ≤ ⌊a⌋ + 1 := rhe_le a
    _ ≤ ⌊b⌋ := by omega
    _ ≤ rhe b := le_rhe b
  · have hc : ((⌊a⌋ : ℚ)) = ((⌊b⌋ : ℚ)) := by exact_mod_cast heq
    have hr : a - (⌊a⌋ : ℚ) ≤ b - (⌊b⌋ : ℚ) := by rw [← hc]; linarith
    unfold rhe
    split_ifs <;> first | omega | (exfalso; linarith)

lemma rhe_intCast (z : ℤ) : rhe (z : ℚ) = z := by
  unfold rhe
  have h0 : ⌊(z : ℚ)⌋ = z := Int.floor_intCast z
  rw [h0]
  norm_num

lemma round2_mono {a b : ℚ} (h : a ≤ b) : round2 a ≤ round2 b := by
  unfold round2
  have h1 : rhe (a * 100) ≤ rhe (b * 100) :=
    rhe_mono (by linarith)
  have h2 : ((rhe (a * 100) : ℚ)) ≤ ((rhe (b * 100) : ℚ)) := by exact_mod_cast h1
  linarith

lemma round2_zero : round2 0 = 0 := by
  unfold round2
  rw [show ((0 : ℚ) * 100) = ((0 : ℤ) : ℚ) by norm_num, rhe_intCast]
  norm_num

/-- round2 is the identity on exact hundredths z/100. -/
lemma round2_hundredth (z : ℤ) : round2 ((z : ℚ) / 100) = (z : ℚ) / 100 := by
  unfold round2
  rw [show ((z : ℚ) / 100 * 100) = ((z : ℚ)) by ring, rhe_intCast]

/-- round2 absorbs itself: the stored 2-decimal values are fixed points. -/
lemma round2_round2 (q : ℚ) : round2 (round2 q) = round2 q :=
  round2_hundredth (rhe (q * 100))

lemma round2_nonpos {q : ℚ} (h : q ≤ 0) : round2 q ≤ 0 := by
  have := round2_mono h
  rwa [round2_zero] at this

lemma pos_of_round2_pos {q : ℚ} (h : 0 < round2 q) : 0 < q := by
  by_contra hq
  push_neg at hq
  exact absurd h (not_lt.mpr (round2_nonpos hq))

lemma pytrunc_mono_of_nonneg {a b : ℚ} (ha : 0 ≤ a) (h : a ≤ b) :
    pytrunc a ≤ pytrunc b := by
  unfold pytrunc
  rw [if_pos ha, if_pos (le_trans ha h)]
  exact Int.floor_le_floor h

/-- Evaluation: round2 rounds down when the fractional hundredth is below 1/2. -/
lemma round2_eq_down (q : ℚ) (z : ℤ) (h1 : (z : ℚ) ≤ q * 100)
    (h2 : q * 100 - z < 1/2) : round2 q = (z : ℚ)/100 := by
  have hf : ⌊q * 100⌋ = z := by
    rw [Int.floor_eq_iff]
    exact ⟨h1, by push_cast; linarith⟩
  unfold round2 rhe
  rw [hf, if_pos (by exact_mod_cast h2)]

/-- Evaluation: round2 rounds up when the fractional hundredth exceeds 1/2. -/
lemma round2_eq_up (q : ℚ) (z : ℤ) (h1 : (z : ℚ) ≤ q * 100)
    (h2 : 1/2 < q * 100 - z) (h3 : q * 100 < z + 1) :
    round2 q = ((z + 1 : ℤ) : ℚ)/100 := by
  have hf : ⌊q * 100⌋ = z := by
    rw [Int.floor_eq_iff]
    exact ⟨h1, by push_cast; linarith⟩
  unfold round2 rhe
  rw [hf, if_neg (by push_cast; linarith), if_pos (by exact_mod_cast h2)]

/-- round2 fixes any rational that is an exact hundredth. -/
lemma round2_num (q : ℚ) (z : ℤ) (h : q * 100 = (z : ℚ)) : round2 q = q := by
  have h2 : q = (z : ℚ)/100 := by rw [← h]; ring
  rw [h2]
  exact round2_hundredth z

/-! ## Directions and enums (src/src/models/signal.py, trade.py) -/

inductive SignalDirection
  | long
  | short
  | neutral
deriving DecidableEq, Repr

inductive TradeDirection
  | long
  | short
deriving DecidableEq, Repr

inductive InstrumentType
  | futures
  | call_option
  | put_option
deriving DecidableEq, Repr

inductive TradeStatus
  | pending
  | active
  | executed
  | cancelled
  | expired
  | rejected
deriving DecidableEq, Repr

/-! ## Market data (src/src/models/market_data.py) -/

/-- OHLCV candle; the Python field named open is a Lean keyword, so open_px. -/
structure OHLCV where
  open_px : ℚ
  high : ℚ
  low : ℚ
  close : ℚ
  volume : ℤ
deriving DecidableEq, Repr

def OHLCV.range (c : OHLCV) : ℚ := c.high - c.low

structure SpotData where
  ltp : ℚ
  ohlcv : OHLCV
deriving DecidableEq, Repr

structure FuturesData where
  ltp : ℚ
  ohlcv : OHLCV
deriving DecidableEq, Repr

structure OptionGreeks where
  delta : ℚ
  iv : ℚ
deriving DecidableEq, Repr

structure OptionData where
  strike : ℚ
  ltp : ℚ
  open_interest : ℤ
  oi_change : ℤ
  greeks : OptionGreeks
deriving DecidableEq, Repr

structure OptionsChain where
  spot_price : ℚ
  atm_strike : ℚ
  calls : List OptionData
  puts : List OptionData
deriving DecidableEq, Repr

/-- First call whose strike equals the ATM strike (the Python for-loop). -/
def OptionsChain.atm_call (c : OptionsChain) : Option OptionData :=
  c.calls.find? (fun o => decide (o.strike = c.atm_strike))

def OptionsChain.atm_put (c : OptionsChain) : Option OptionData :=
  c.puts.find? (fun o => decide (o.strike = c.atm_strike))

def OptionsChain.atm_straddle_premium (c : OptionsChain) : ℚ :=
  match c.atm_call, c.atm_put with
  | some call, some put => call.ltp + put.ltp
  | _, _ => 0

def OptionsChain.total_call_oi (c : OptionsChain) : ℤ :=
  c.calls.foldl (fun acc o => acc + o.open_interest) 0

def OptionsChain.total_put_oi (c : OptionsChain) : ℤ :=
  c.puts.foldl (fun acc o => acc + o.open_interest) 0

def OptionsChain.pcr (c : OptionsChain) : ℚ :=
  if c.total_call_oi = 0 then 0
  else (c.total_put_oi : ℚ) / (c.total_call_oi : ℚ)

/-- Writer pain at a candidate strike (get_max_pain inner loop; the Python
code accumulates calls then puts into one sum). -/
def OptionsChain.pain_at (c : OptionsChain) (strike : ℚ) : ℚ :=
  (c.calls.foldl
    (fun acc call =>
      if call.strike < strike then acc + (strike - call.strike) * call.open_interest else acc)
    0)
  + (c.puts.foldl
    (fun acc put =>
      if put.strike > strike then acc + (put.strike - strike) * put.open_interest else acc)
    0)

/-- Ascending insertion (for Python sorted(set(...)) over strikes). -/
def insertAsc (x : ℚ) : List ℚ → List ℚ
  | [] => [x]
  | y :: ys => if x ≤ y then x :: y :: ys else y :: insertAsc x ys

def sortAsc (l : List ℚ) : List ℚ := l.foldr insertAsc []

/-- get_max_pain: fold over the sorted distinct call strikes keeping the
strike of strictly smallest pain; the Python float inf start is modelled
with an Option accumulator (the first strike always replaces it). -/
def OptionsChain.get_max_pain (c : OptionsChain) : ℚ :=
  if c.calls = [] ∨ c.puts = [] then c.atm_strike
  else
    let strikes := sortAsc ((c.calls.map (fun o => o.strike)).dedup)
    let best := strikes.foldl
      (fun acc strike =>
        match acc with
        | none => some (c.pain_at strike, strike)
        | some (minPain, bestStrike) =>
          if c.pain_at strike < minPain then some (c.pain_at strike, strike)
          else some (minPain, bestStrike))
      none
    match best with
    | some (_, s) => s
    | none => c.atm_strike

/-- Stable descending insertion by OI; Python sorted(key=oi, reverse=True)
is stable, so an element goes before the first list entry with OI ≤ its own. -/
def insertDescOI (x : ℚ × ℤ) : List (ℚ × ℤ) → List (ℚ × ℤ)
  | [] => [x]
  | y :: ys => if y.2 ≤ x.2 then x :: y :: ys else y :: insertDescOI x ys

def sortDescOI (l : List (ℚ × ℤ)) : List (ℚ × ℤ) := l.foldr insertDescOI []

def OptionsChain.call_walls (c : OptionsChain) : List (ℚ × ℤ) :=
  (sortDescOI (c.calls.map (fun o => (o.strike, o.open_interest)))).take 3

def OptionsChain.put_walls (c : OptionsChain) : List (ℚ × ℤ) :=
  (sortDescOI (c.puts.map (fun o => (o.strike, o.open_interest)))).take 3

structure MarketSnapshot where
  spot : SpotData
  futures : FuturesData
  options_chain : OptionsChain
deriving DecidableEq, Repr

/-! ## Regime (the fields the trade builder and claims read) -/

structure OpeningRange where
  high : ℚ
  low : ℚ
  captured : Bool
deriving DecidableEq, Repr

def OpeningRange.range (o : OpeningRange) : ℚ := o.high - o.low

structure MarketRegime where
  opening_range : Option OpeningRange
  trade_allowed : Bool
deriving DecidableEq, Repr

/-! ## Signal models (src/src/models/signal.py) -/

inductive BuildupType
  | long_buildup
  | short_buildup
  | long_unwinding
  | short_covering
  | neutral
deriving DecidableEq, Repr

inductive PcrInterpretation
  | bullish
  | bearish
  | neutral
deriving DecidableEq, Repr

inductive IvStatus
  | low
  | normal
  | elevated
  | extreme
deriving DecidableEq, Repr

inductive IvTrend
  | expanding
  | contracting
  | stable
deriving DecidableEq, Repr

/-- The conflict reason strings of engine.py as tags. -/
inductive ConflictReason
  | mixed_directions
  | oi_bullish_pcr_bearish
  | oi_bearish_pcr_bullish
  | iv_expanding_unclear
deriving DecidableEq, Repr

structure OptionsIntelligence where
  direction : SignalDirection
  confidence : ℚ
  delta_oi_calls : ℤ
  delta_oi_puts : ℤ
  oi_buildup_type : BuildupType
  atm_straddle_premium : ℚ
  atm_straddle_change : ℚ
  atm_iv : ℚ
  current_pcr : ℚ
  pcr_change : ℚ
  pcr_interpretation : PcrInterpretation
  call_wall_strike : ℚ
  call_wall_oi : ℤ
  put_wall_strike : ℚ
  put_wall_oi : ℤ
  iv_percentile : ℚ
  iv_status : IvStatus
  iv_trend : IvTrend
  max_pain_strike : ℚ
  distance_to_max_pain : ℚ
  has_conflict : Bool
  conflict_reasons : List ConflictReason
deriving DecidableEq, Repr

/-- One indicator output: its direction and score (name/value/reasoning
strings dropped). -/
structure IndicatorSignal where
  signal : SignalDirection
  score : ℚ
deriving DecidableEq, Repr

structure ConfluenceScore where
  total_score : ℚ
  max_possible_score : ℚ
  direction : SignalDirection
  is_eligible : Bool
  bullish_count : ℕ
  bearish_count : ℕ
  neutral_count : ℕ
deriving DecidableEq, Repr

structure TradeSignal where
  direction : SignalDirection
  is_valid : Bool
  total_score : ℚ
deriving DecidableEq, Repr

/-! ## Trade plan models (src/src/models/trade.py) -/

structure EntryZone where
  lower : ℚ
  upper : ℚ
  optimal : ℚ
deriving DecidableEq, Repr

/-- The rejection reason strings of _validate_trade as tags. -/
inductive PlanRejectReason
  | rr_below_min
  | risk_exceeds_max
  | regime_not_allowed
  | invalid_position_size
deriving DecidableEq, Repr

structure TradePlan where
  instrument_type : InstrumentType
  direction : TradeDirection
  entry_zone : EntryZone
  stop_loss : ℚ
  target_1 : ℚ
  target_2 : ℚ
  risk_points : ℚ
  reward_t1_points : ℚ
  reward_t2_points : ℚ
  risk_reward_t1 : ℚ
  risk_reward_t2 : ℚ
  position_size : ℤ
  lot_size : ℤ
  risk_amount : ℚ
  status : TradeStatus
  is_valid : Bool
  rejection_reasons : List PlanRejectReason
  confidence : ℚ
deriving DecidableEq, Repr

/-! ## Trade builder (src/src/trade/builder.py) -/

structure TradeBuilder where
  capital : ℚ
  risk_per_trade_pct : ℚ
  min_risk_reward : ℚ
deriving DecidableEq, Repr

/-- Bank Nifty lot size, hard-coded 15 in TradeBuilder.__init__. -/
def TradeBuilder.lot_size (_b : TradeBuilder) : ℤ := 15

def TradeBuilder.max_risk_amount (b : TradeBuilder) : ℚ :=
  b.capital * (b.risk_per_trade_pct / 100)

/-- _select_instrument: futures by default; on extreme IV or a conflict
switch to the ATM option of the view when present (symbol strings dropped). -/
def TradeBuilder.select_instrument (_b : TradeBuilder) (direction : SignalDirection)
    (snapshot : MarketSnapshot) (options_intel : OptionsIntelligence) : InstrumentType :=
  if options_intel.iv_status = .extreme ∨ options_intel.has_conflict = true then
    if direction = .long then
      match snapshot.options_chain.atm_call with
      | some _ => .call_option
      | none => .futures
    else
      match snapshot.options_chain.atm_put with
      | some _ => .put_option
      | none => .futures
  else .futures

def TradeBuilder.get_instrument_price (_b : TradeBuilder) (instrument_type : InstrumentType)
    (snapshot : MarketSnapshot) : ℚ :=
  match instrument_type with
  | .futures => snapshot.futures.ltp
  | .call_option => (snapshot.options_chain.atm_call.map (fun o => o.ltp)).getD 0
  | .put_option => (snapshot.options_chain.atm_put.map (fun o => o.ltp)).getD 0

/-- The ATR estimate of _calculate_entry_zone: half the session range when
the range is positive, else 0.2% of the current price (an if/else, not a
max of the two). -/
def TradeBuilder.entry_atr_estimate (current_price : ℚ) (snapshot : MarketSnapshot) : ℚ :=
  if snapshot.spot.ohlcv.range > 0 then snapshot.spot.ohlcv.range * 0.5
  else current_price * 0.002

def TradeBuilder.calculate_entry_zone (_b : TradeBuilder) (current_price : ℚ)
    (direction : TradeDirection) (_regime : MarketRegime) (snapshot : MarketSnapshot) :
    EntryZone :=
  let atr_estimate := TradeBuilder.entry_atr_estimate current_price snapshot
  let zone_width := atr_estimate * 0.3
  match direction with
  | .long =>
    { lower := round2 (current_price - zone_width)
      upper := round2 current_price
      optimal := round2 (current_price - zone_width * 0.3) }
  | .short =>
    { lower := round2 current_price
      upper := round2 (current_price + zone_width)
      optimal := round2 (current_price + zone_width * 0.3) }

/-- The stop-loss buffer of _calculate_stop_loss: 1.5 × (range × 0.5)
(no 0.2% fallback here), widened to half the opening range when captured. -/
def TradeBuilder.sl_buffer (regime : MarketRegime) (snapshot : MarketSnapshot) : ℚ :=
  let atr_estimate := snapshot.spot.ohlcv.range * 0.5
  let base := atr_estimate * 1.5
  match regime.opening_range with
  | some orng => if orng.captured then max base (orng.range * 0.5) else base
  | none => base

def TradeBuilder.calculate_stop_loss (_b : TradeBuilder) (entry_price : ℚ)
    (direction : TradeDirection) (regime : MarketRegime) (snapshot : MarketSnapshot) : ℚ :=
  let buf := TradeBuilder.sl_buffer regime snapshot
  match direction with
  | .long =>
    let stop := entry_price - buf
    match regime.opening_range with
    | some orng =>
      if orng.captured ∧ orng.low < entry_price then min stop (orng.low - 10) else stop
    | none => stop
  | .short =>
    let stop := entry_price + buf
    match regime.opening_range with
    | some orng =>
      if orng.captured ∧ orng.high > entry_price then max stop (orng.high + 10) else stop
    | none => stop

def TradeBuilder.calculate_targets (_b : TradeBuilder) (entry_price stop_loss : ℚ)
    (direction : TradeDirection) : ℚ × ℚ :=
  let risk := |entry_price - stop_loss|
  match direction with
  | .long => (entry_price + risk * 1.5, entry_price + risk * 2.5)
  | .short => (entry_price - risk * 1.5, entry_price - risk * 2.5)

def TradeBuilder.calculate_position_size (b : TradeBuilder) (risk_points : ℚ)
    (_instrument_type : InstrumentType) : ℤ :=
  if risk_points ≤ 0 then 1
  else
    let risk_per_lot := risk_points * (b.lot_size : ℚ)
    let lots := pytrunc (b.max_risk_amount / risk_per_lot)
    max 1 (min lots 5)

def TradeBuilder.validate_trade (b : TradeBuilder) (risk_reward_t2 risk_amount : ℚ)
    (position_size : ℤ) (regime : MarketRegime) : Bool × List PlanRejectReason :=
  let r1 : List PlanRejectReason :=
    if risk_reward_t2 < b.min_risk_reward then [.rr_below_min] else []
  let r2 : List PlanRejectReason :=
    if risk_amount > b.max_risk_amount then [.risk_exceeds_max] else []
  let r3 : List PlanRejectReason :=
    if regime.trade_allowed = false then [.regime_not_allowed] else []
  let r4 : List PlanRejectReason :=
    if position_size < 1 then [.invalid_position_size] else []
  let reasons := r1 ++ r2 ++ r3 ++ r4
  (reasons.isEmpty, reasons)

def TradeBuilder.to_trade_direction (signal_dir : SignalDirection) : TradeDirection :=
  if signal_dir = .long then .long else .short

def TradeBuilder.build_trade_plan (b : TradeBuilder) (signal : TradeSignal)
    (snapshot : MarketSnapshot) (regime : MarketRegime) (_confluence : ConfluenceScore)
    (options_intel : OptionsIntelligence) : Option TradePlan :=
  if signal.is_valid = false then none
  else
    let instrument_type := b.select_instrument signal.direction snapshot options_intel
    let current_price := b.get_instrument_price instrument_type snapshot
    let direction := TradeBuilder.to_trade_direction signal.direction
    let entry_zone := b.calculate_entry_zone current_price direction regime snapshot
    let stop_loss := b.calculate_stop_loss entry_zone.optimal direction regime snapshot
    let targets := b.calculate_targets entry_zone.optimal stop_loss direction
    let risk_points := |entry_zone.optimal - stop_loss|
    let reward_t1_points := |targets.1 - entry_zone.optimal|
    let reward_t2_points := |targets.2 - entry_zone.optimal|
    let risk_reward_t1 := if risk_points > 0 then reward_t1_points / risk_points else 0
    let risk_reward_t2 := if risk_points > 0 then reward_t2_points / risk_points else 0
    let position_size := b.calculate_position_size risk_points instrument_type
    let risk_amount := risk_points * (position_size : ℚ) * (b.lot_size : ℚ)
    let v := b.validate_trade risk_reward_t2 risk_amount position_size regime
    some
      { instrument_type := instrument_type
        direction := direction
        entry_zone := entry_zone
        stop_loss := round2 stop_loss
        target_1 := round2 targets.1
        target_2 := round2 targets.2
        risk_points := round2 risk_points
        reward_t1_points := round2 reward_t1_points
        reward_t2_points := round2 reward_t2_points
        risk_reward_t1 := round2 risk_reward_t1
        risk_reward_t2 := round2 risk_reward_t2
        position_size := position_size
        lot_size := b.lot_size
        risk_amount := round2 risk_amount
        status := if v.1 then .pending else .rejected
        is_valid := v.1
        rejection_reasons := v.2
        confidence := signal.total_score / 30 }

/-! ## Confluence engine (src/src/confluence/engine.py) -/

/-- Score contribution of one indicator given the regime direction:
full when aligned, half when the indicator is neutral, zero when opposed;
raw score when no (non-neutral) regime direction is supplied. -/
def alignment_score (regime_direction : Option SignalDirection)
    (s : IndicatorSignal) : ℚ :=
  match regime_direction with
  | some rd =>
    if rd ≠ .neutral then
      if s.signal = rd then s.score
      else if s.signal = .neutral then s.score * 0.5
      else 0
    else s.score
  | none => s.score

/-- calculate_confluence over the five computed indicator signals
(the per-indicator calculate calls are the quantified inputs here).
The stored total is rounded to 1 decimal; eligibility uses the raw total. -/
def calculate_confluence (min_score : ℚ) (signals : List IndicatorSignal)
    (regime_direction : Option SignalDirection) : ConfluenceScore :=
  let total_score := signals.foldl (fun acc s => acc + alignment_score regime_direction s) 0
  let bullish_count := signals.countP (fun s => decide (s.signal = .long))
  let bearish_count := signals.countP (fun s => decide (s.signal = .short))
  let neutral_count := signals.countP
    (fun s => decide (s.signal ≠ .long ∧ s.signal ≠ .short))
  let direction :=
    if bullish_count > bearish_count + neutral_count then SignalDirection.long
    else if bearish_count > bullish_count + neutral_count then SignalDirection.short
    else SignalDirection.neutral
  { total_score := round1 total_score
    max_possible_score := 2 * signals.length
    direction := direction
    is_eligible := decide (total_score ≥ min_score) && decide (direction ≠ .neutral)
    bullish_count := bullish_count
    bearish_count := bearish_count
    neutral_count := neutral_count }

/-! ## Options intelligence engine (src/src/options/engine.py) -/

/-- The engine state mutated across analyze calls. -/
structure OptionsEngineState where
  prev_pcr : Option ℚ
  prev_straddle : Option ℚ
  iv_history : List ℚ
deriving DecidableEq, Repr

def iv_lookback : ℕ := 20

def pcr_bullish_threshold : ℚ := 1.2

def pcr_bearish_threshold : ℚ := 0.8

/-- _analyze_oi_changes (reasoning strings dropped). -/
def analyze_oi_changes (chain : OptionsChain) : ℤ × ℤ × BuildupType :=
  let total_call_oi_change := chain.calls.foldl (fun acc c => acc + c.oi_change) (0 : ℤ)
  let total_put_oi_change := chain.puts.foldl (fun acc p => acc + p.oi_change) (0 : ℤ)
  let buildup :=
    if total_call_oi_change > 0 ∧ total_put_oi_change > 0 then
      if total_put_oi_change > total_call_oi_change then BuildupType.long_buildup
      else BuildupType.short_buildup
    else if total_call_oi_change < 0 ∧ total_put_oi_change < 0 then
      if |total_call_oi_change| > |total_put_oi_change| then BuildupType.short_covering
      else BuildupType.long_unwinding
    else if total_put_oi_change > 0 ∧ total_call_oi_change ≤ 0 then BuildupType.long_buildup
    else if total_call_oi_change > 0 ∧ total_put_oi_change ≤ 0 then BuildupType.short_buildup
    else BuildupType.neutral
  (total_call_oi_change, total_put_oi_change, buildup)

/-- _interpret_pcr (the change argument is unused by the source too). -/
def interpret_pcr (pcr : ℚ) (_change : ℚ) : PcrInterpretation :=
  if pcr > pcr_bullish_threshold then .bullish
  else if pcr < pcr_bearish_threshold then .bearish
  else .neutral

/-- _analyze_oi_walls. -/
def analyze_oi_walls (spot call_wall put_wall : ℚ) : Option SignalDirection :=
  if call_wall = 0 ∨ put_wall = 0 then none
  else
    let distance_to_call := call_wall - spot
    let distance_to_put := spot - put_wall
    if distance_to_call > 0 ∧ distance_to_put > 0 then
      if distance_to_call < distance_to_put then some .short else some .long
    else none

/-- _calculate_iv_percentile; the Python count over the sorted copy equals
the count over the history itself. -/
def calculate_iv_percentile (history : List ℚ) (current_iv : ℚ) : ℚ :=
  if history.length < 5 then 50
  else ((history.countP (fun iv => decide (iv < current_iv)) : ℚ) / (history.length : ℚ)) * 100

def get_iv_status (percentile : ℚ) : IvStatus :=
  if percentile < 20 then .low
  else if percentile < 50 then .normal
  else if percentile < 80 then .elevated
  else .extreme

/-- _get_iv_trend over the last three history entries. -/
def get_iv_trend (history : List ℚ) : IvTrend :=
  if history.length < 3 then .stable
  else
    match history.drop (history.length - 3) with
    | [a, b, c] =>
      if a < b ∧ b < c then .expanding
      else if a > b ∧ b > c then .contracting
      else .stable
    | _ => .stable

/-- _detect_conflicts: the three checks each both raise the flag and append
a reason, combined exactly as the source does. -/
def detect_conflicts (direction_signals : List SignalDirection)
    (oi_buildup : BuildupType) (pcr_interpretation : PcrInterpretation)
    (iv_trend : IvTrend) : Bool × List ConflictReason :=
  let long_signals := direction_signals.countP (fun s => decide (s = .long))
  let short_signals := direction_signals.countP (fun s => decide (s = .short))
  let h1 := decide (long_signals > 0 ∧ short_signals > 0)
  let r1 : List ConflictReason := if h1 then [.mixed_directions] else []
  let h2a := decide ((oi_buildup = .long_buildup ∨ oi_buildup = .short_covering)
    ∧ pcr_interpretation = .bearish)
  let h2b := decide ((oi_buildup = .short_buildup ∨ oi_buildup = .long_unwinding)
    ∧ pcr_interpretation = .bullish)
  let r2 : List ConflictReason :=
    if h2a then [.oi_bullish_pcr_bearish]
    else if h2b then [.oi_bearish_pcr_bullish] else []
  let h3 := decide (iv_trend = .expanding ∧ direction_signals.dedup.length > 1)
  let r3 : List ConflictReason := if h3 then [.iv_expanding_unclear] else []
  (h1 || (h2a || h2b) || h3, r1 ++ r2 ++ r3)

/-- _aggregate_direction. -/
def aggregate_direction (signals : List SignalDirection) : SignalDirection :=
  if signals = [] then .neutral
  else
    let long_count := signals.countP (fun s => decide (s = .long))
    let short_count := signals.countP (fun s => decide (s = .short))
    if long_count > short_count then .long
    else if short_count > long_count then .short
    else .neutral

/-- The IV multiplier dictionary of _calculate_confidence. -/
def iv_multiplier : IvStatus → ℚ
  | .low => 0.8
  | .normal => 1
  | .elevated => 0.9
  | .extreme => 0.7

/-- _calculate_confidence. -/
def calculate_confidence (direction_signals : List SignalDirection)
    (conflicts : List ConflictReason) (iv_status : IvStatus) : ℚ :=
  if conflicts ≠ [] then 0
  else if direction_signals = [] then 0
  else
    let total : ℚ := direction_signals.length
    let dominant : ℚ := max
      (direction_signals.countP (fun s => decide (s = .long)) : ℚ)
      (direction_signals.countP (fun s => decide (s = .short)) : ℚ)
    let agreement_ratio := if total > 0 then dominant / total else 0
    let confidence := agreement_ratio * iv_multiplier iv_status
    round2 (min confidence 1)

/-- analyze: the per-call pipeline, returning the intelligence and the
updated engine state. -/
def analyze (st : OptionsEngineState) (chain : OptionsChain) (spot_price : ℚ) :
    OptionsIntelligence × OptionsEngineState :=
  let current_pcr := chain.pcr
  let atm_straddle := chain.atm_straddle_premium
  let atm_iv := ((chain.atm_call.map (fun o => o.greeks.iv)).getD 0
    + (chain.atm_put.map (fun o => o.greeks.iv)).getD 0) / 2
  let history0 := st.iv_history ++ [atm_iv]
  let history :=
    if history0.length > iv_lookback then history0.drop (history0.length - iv_lookback)
    else history0
  let oi := analyze_oi_changes chain
  let oi_buildup := oi.2.2
  let pcr_change := match st.prev_pcr with | some p => current_pcr - p | none => 0
  let pcr_interp := match st.prev_pcr with
    | some p => interpret_pcr current_pcr (current_pcr - p)
    | none => interpret_pcr current_pcr 0
  let straddle_change := match st.prev_straddle with
    | some s => atm_straddle - s
    | none => 0
  let iv_percentile := calculate_iv_percentile history atm_iv
  let iv_status := get_iv_status iv_percentile
  let iv_trend := get_iv_trend history
  let call_wall := chain.call_walls.head?.getD (0, 0)
  let put_wall := chain.put_walls.head?.getD (0, 0)
  let max_pain := chain.get_max_pain
  let ds1 : List SignalDirection :=
    if oi_buildup = .long_buildup ∨ oi_buildup = .short_covering then [.long]
    else if oi_buildup = .short_buildup ∨ oi_buildup = .long_unwinding then [.short]
    else []
  let ds2 : List SignalDirection :=
    if pcr_interp = .bullish then [.long]
    else if pcr_interp = .bearish then [.short]
    else []
  let ds3 : List SignalDirection :=
    match analyze_oi_walls spot_price call_wall.1 put_wall.1 with
    | some d => [d]
    | none => []
  let direction_signals := ds1 ++ ds2 ++ ds3
  let conflict := detect_conflicts direction_signals oi_buildup pcr_interp iv_trend
  let direction :=
    if conflict.1 then SignalDirection.neutral
    else aggregate_direction direction_signals
  let confidence := calculate_confidence direction_signals conflict.2 iv_status
  (⟨direction, confidence, oi.1, oi.2.1, oi_buildup,
    round2 atm_straddle, round2 straddle_change, round2 atm_iv,
    round3 current_pcr, round3 pcr_change, pcr_interp,
    call_wall.1, call_wall.2, put_wall.1, put_wall.2,
    round1 iv_percentile, iv_status, iv_trend, max_pain,
    round2 (spot_price - max_pain), conflict.1, conflict.2⟩,
   ⟨some current_pcr, some atm_straddle, history⟩)

/-! ## Signal fusing (src/src/api/routes.py get_current_signal) -/

/-- The fused TradeSignal built in get_current_signal: valid iff the regime
allows trading, the confluence is eligible and the options show no conflict;
direction only when confluence and options agree, else neutral and invalid. -/
def fuse_signal (regime_trade_allowed : Bool) (confluence : ConfluenceScore)
    (options_intel : OptionsIntelligence) : TradeSignal :=
  let is_valid0 := regime_trade_allowed && confluence.is_eligible
    && !options_intel.has_conflict
  let regime_score : ℚ := if regime_trade_allowed then 2 else 0
  let total_score := confluence.total_score + options_intel.confidence * 10 + regime_score
  if is_valid0 then
    if confluence.direction = .long ∧ options_intel.direction = .long then
      ⟨.long, true, total_score⟩
    else if confluence.direction = .short ∧ options_intel.direction = .short then
      ⟨.short, true, total_score⟩
    else ⟨.neutral, false, total_score⟩
  else ⟨.neutral, false, total_score⟩

/-! ## Risk models and governor (src/src/models/risk.py, src/src/risk/governor.py) -/

inductive RiskStatus
  | normal
  | caution
  | warning
  | critical
  | shutdown
deriving DecidableEq, Repr

inductive ShutdownReason
  | max_daily_loss
  | consecutive_losses
deriving DecidableEq, Repr

structure DailyRiskState where
  trades_taken : ℤ
  max_trades : ℤ
  trades_remaining : ℤ
  total_pnl : ℚ
  realized_pnl : ℚ
  unrealized_pnl : ℚ
  consecutive_losses : ℤ
  max_consecutive_losses : ℤ
  worst_trade_pnl : ℚ
  best_trade_pnl : ℚ
  starting_capital : ℚ
  current_capital : ℚ
  max_daily_loss_amount : ℚ
  remaining_risk_capacity : ℚ
  max_loss_reached : Bool
  max_trades_reached : Bool
  hard_shutdown : Bool
  status : RiskStatus
  shutdown_reason : Option ShutdownReason
deriving DecidableEq, Repr

/-- DailyRiskState._update_status. -/
def DailyRiskState.update_status (s : DailyRiskState) : DailyRiskState :=
  { s with status :=
      if s.hard_shutdown then .shutdown
      else if s.max_loss_reached ∨ s.max_trades_reached then .critical
      else if s.consecutive_losses ≥ 1
        ∨ s.remaining_risk_capacity < s.max_daily_loss_amount * 0.5 then .warning
      else if s.trades_taken ≥ 1 ∨ s.total_pnl < 0 then .caution
      else .normal }

structure ExecutedTrade where
  pnl_amount : ℚ
  is_winner : Option Bool
deriving DecidableEq, Repr

/-- Python truthiness of the Optional[bool] field is_winner in
record_trade_exit: None counts as a loss. -/
def ExecutedTrade.winner (t : ExecutedTrade) : Bool := t.is_winner = some true

structure RiskGovernor where
  capital : ℚ
  max_trades : ℤ
  max_daily_loss_pct : ℚ
  max_consecutive_losses : ℤ
  min_risk_reward : ℚ
deriving DecidableEq, Repr

def RiskGovernor.max_daily_loss_amount (g : RiskGovernor) : ℚ :=
  g.capital * (g.max_daily_loss_pct / 100)

/-- initialize_day. -/
def RiskGovernor.init_day (g : RiskGovernor) : DailyRiskState :=
  { trades_taken := 0
    max_trades := g.max_trades
    trades_remaining := g.max_trades
    total_pnl := 0
    realized_pnl := 0
    unrealized_pnl := 0
    consecutive_losses := 0
    max_consecutive_losses := g.max_consecutive_losses
    worst_trade_pnl := 0
    best_trade_pnl := 0
    starting_capital := g.capital
    current_capital := g.capital
    max_daily_loss_amount := g.max_daily_loss_amount
    remaining_risk_capacity := g.max_daily_loss_amount
    max_loss_reached := false
    max_trades_reached := false
    hard_shutdown := false
    status := .normal
    shutdown_reason := none }

/-- The rejection reason strings of check_trade_risk as tags. -/
inductive GovReason
  | hard_shutdown_active
  | max_trades_reached
  | max_daily_loss
  | risk_exceeds_capacity
  | plan_invalid
  | rr_below_min
deriving DecidableEq, Repr

inductive GovWarning
  | consecutive_loss_caution
  | last_trade_of_day
  | significant_capacity_use
deriving DecidableEq, Repr

structure RiskCheckResult where
  is_allowed : Bool
  rejection_reasons : List GovReason
  warnings : List GovWarning
  suggested_position_size : Option ℤ
deriving DecidableEq, Repr

/-- _suggest_position_size. -/
def RiskGovernor.suggest_position_size (s : DailyRiskState) (plan : TradePlan) :
    Option ℤ :=
  let remaining := s.remaining_risk_capacity
  if remaining ≤ 0 then none
  else
    let risk_per_lot := plan.risk_points * (plan.lot_size : ℚ)
    if risk_per_lot ≤ 0 then none
    else
      let max_lots := pytrunc (remaining / risk_per_lot)
      if max_lots > 0 then some (max 1 max_lots) else none

/-- _create_result (the substring-derived per-check booleans are dropped;
suggested size is computed exactly when the trade is rejected). -/
def RiskGovernor.create_result (s : DailyRiskState) (plan : TradePlan)
    (is_allowed : Bool) (rejections : List GovReason) (warnings : List GovWarning) :
    RiskCheckResult :=
  { is_allowed := is_allowed
    rejection_reasons := rejections
    warnings := warnings
    suggested_position_size :=
      if is_allowed = false then RiskGovernor.suggest_position_size s plan else none }

/-- check_trade_risk: the six checks in source order, then the warnings. -/
def RiskGovernor.check_trade_risk (g : RiskGovernor) (s : DailyRiskState)
    (plan : TradePlan) : RiskCheckResult :=
  if s.hard_shutdown then
    RiskGovernor.create_result s plan false [.hard_shutdown_active] []
  else if s.trades_taken ≥ s.max_trades then
    RiskGovernor.create_result s plan false [.max_trades_reached] []
  else if s.total_pnl ≤ -s.max_daily_loss_amount then
    RiskGovernor.create_result s plan false [.max_daily_loss] []
  else if plan.risk_amount > s.remaining_risk_capacity then
    RiskGovernor.create_result s plan false [.risk_exceeds_capacity] []
  else if plan.is_valid = false then
    RiskGovernor.create_result s plan false [.plan_invalid] []
  else if plan.risk_reward_t2 < g.min_risk_reward then
    RiskGovernor.create_result s plan false [.rr_below_min] []
  else
    let w1 : List GovWarning :=
      if s.consecutive_losses ≥ 1 then [.consecutive_loss_caution] else []
    let w2 : List GovWarning :=
      if s.trades_taken ≥ s.max_trades - 1 then [.last_trade_of_day] else []
    let w3 : List GovWarning :=
      if plan.risk_amount > s.remaining_risk_capacity * 0.5 then [.significant_capacity_use]
      else []
    RiskGovernor.create_result s plan true [] (w1 ++ w2 ++ w3)

/-- record_trade_entry (the plan argument is unused by the source too). -/
def RiskGovernor.record_trade_entry (_g : RiskGovernor) (s : DailyRiskState)
    (_plan : TradePlan) : DailyRiskState :=
  let s1 := { s with trades_taken := s.trades_taken + 1 }
  let s2 := { s1 with trades_remaining := max 0 (s1.max_trades - s1.trades_taken) }
  let s3 :=
    if s2.trades_taken ≥ s2.max_trades then { s2 with max_trades_reached := true } else s2
  DailyRiskState.update_status s3

/-- RiskGovernor._check_limits (note: unlike DailyRiskState._check_limits it
does not touch max_trades_reached). -/
def RiskGovernor.check_limits (s : DailyRiskState) : DailyRiskState :=
  let s1 :=
    if s.total_pnl ≤ -s.max_daily_loss_amount then
      { s with
        max_loss_reached := true
        hard_shutdown := true
        shutdown_reason := some ShutdownReason.max_daily_loss }
    else s
  let s2 :=
    if s1.consecutive_losses ≥ s1.max_consecutive_losses then
      { s1 with
        hard_shutdown := true
        shutdown_reason := some ShutdownReason.consecutive_losses }
    else s1
  DailyRiskState.update_status s2

/-- record_trade_exit. -/
def RiskGovernor.record_trade_exit (_g : RiskGovernor) (s : DailyRiskState)
    (trade : ExecutedTrade) : DailyRiskState :=
  let realized := s.realized_pnl + trade.pnl_amount
  let total := realized + s.unrealized_pnl
  let s1 := { s with
    realized_pnl := realized
    total_pnl := total
    current_capital := s.starting_capital + total
    worst_trade_pnl :=
      if trade.pnl_amount < s.worst_trade_pnl then trade.pnl_amount else s.worst_trade_pnl
    best_trade_pnl :=
      if trade.pnl_amount > s.best_trade_pnl then trade.pnl_amount else s.best_trade_pnl
    consecutive_losses := if trade.winner then 0 else s.consecutive_losses + 1
    remaining_risk_capacity := s.max_daily_loss_amount + total }
  RiskGovernor.check_limits s1

/-- update_unrealized_pnl: it never touches the shutdown flags or status. -/
def RiskGovernor.update_unrealized_pnl (_g : RiskGovernor) (s : DailyRiskState)
    (unrealized : ℚ) : DailyRiskState :=
  { s with
    unrealized_pnl := unrealized
    total_pnl := s.realized_pnl + unrealized
    current_capital := s.starting_capital + (s.realized_pnl + unrealized) }

/-- The governor operations a trading day sequences (check_trade_risk reads
the state without mutating it). -/
inductive GovernorOp
  | entry (plan : TradePlan)
  | exit_trade (trade : ExecutedTrade)
  | unrealized (amount : ℚ)
  | check (plan : TradePlan)
deriving DecidableEq, Repr

def RiskGovernor.step (g : RiskGovernor) (s : DailyRiskState) :
    GovernorOp → DailyRiskState
  | .entry plan => g.record_trade_entry s plan
  | .exit_trade t => g.record_trade_exit s t
  | .unrealized a => g.update_unrealized_pnl s a
  | .check _ => s

def RiskGovernor.run (g : RiskGovernor) (s : DailyRiskState) :
    List GovernorOp → DailyRiskState
  | [] => s
  | op :: ops => RiskGovernor.run g (RiskGovernor.step g s op) ops

def countEntries : List GovernorOp → ℤ
  | [] => 0
  | GovernorOp.entry _ :: ops => 1 + countEntries ops
  | GovernorOp.exit_trade _ :: ops => countEntries ops
  | GovernorOp.unrealized _ :: ops => countEntries ops
  | GovernorOp.check _ :: ops => countEntries ops

/-! ## Data buffer (src/src/ingestion/data_buffer.py) -/

inductive BufferStatus
  | empty
  | filling
  | ready
  | stale
deriving DecidableEq, Repr

/-- DataBuffer: the deque of items (their timestamps suffice here) plus the
last wall-clock update time; times are rationals (seconds). -/
structure DataBuffer where
  max_size : ℕ
  min_fill_pct : ℚ
  buffer : List ℚ
  last_update_time : Option ℚ
deriving DecidableEq, Repr

/-- _min_fill_count = int(max_size * (min_fill_pct / 100)): Python int()
truncates, it does not take a ceiling. -/
def DataBuffer.min_fill_count (b : DataBuffer) : ℤ :=
  pytrunc ((b.max_size : ℚ) * (b.min_fill_pct / 100))

def DataBuffer.size (b : DataBuffer) : ℕ := b.buffer.length

/-- append at wall-clock time now: deque(maxlen) drops the oldest when full. -/
def DataBuffer.append (b : DataBuffer) (item : ℚ) (now : ℚ) : DataBuffer :=
  let l := b.buffer ++ [item]
  { b with buffer := l.drop (l.length - b.max_size), last_update_time := some now }

def DataBuffer.clear (b : DataBuffer) : DataBuffer :=
  { b with buffer := [], last_update_time := none }

def DataBuffer.is_empty (b : DataBuffer) : Bool := b.size = 0

def DataBuffer.is_ready (b : DataBuffer) : Bool := b.min_fill_count ≤ (b.size : ℤ)

/-- status at wall-clock time now given the configured staleness limit
(settings.max_data_staleness_seconds). -/
def DataBuffer.status (b : DataBuffer) (staleness_limit now : ℚ) : BufferStatus :=
  if b.is_empty then .empty
  else if b.is_ready = false then .filling
  else
    match b.last_update_time with
    | some t => if now - t > staleness_limit * 2 then .stale else .ready
    | none => .ready

def DataBuffer.trade_allowed (b : DataBuffer) (staleness_limit now : ℚ) : Bool :=
  b.status staleness_limit now = .ready

inductive BufferOp
  | append (item now : ℚ)
  | clear
deriving DecidableEq, Repr

def DataBuffer.run (b : DataBuffer) : List BufferOp → DataBuffer
  | [] => b
  | BufferOp.append i t :: ops => (b.append i t).run ops
  | BufferOp.clear :: ops => b.clear.run ops

def countAppends : List BufferOp → ℕ
  | [] => 0
  | BufferOp.append _ _ :: ops => 1 + countAppends ops
  | BufferOp.clear :: ops => countAppends ops

/-! ## Helper lemmas: risk governor state machine -/

lemma update_status_hard (s : DailyRiskState) :
    (DailyRiskState.update_status s).hard_shutdown = s.hard_shutdown := by
  simp [DailyRiskState.update_status]

lemma check_limits_hard_mono (s : DailyRiskState) (h : s.hard_shutdown = true) :
    (RiskGovernor.check_limits s).hard_shutdown = true := by
  simp only [RiskGovernor.check_limits]
  split_ifs <;> simp_all [DailyRiskState.update_status]

lemma step_hard_mono (g : RiskGovernor) (s : DailyRiskState) (op : GovernorOp)
    (h : s.hard_shutdown = true) : (g.step s op).hard_shutdown = true := by
  cases op with
  | entry p =>
    simp only [RiskGovernor.step, RiskGovernor.record_trade_entry]
    split_ifs <;> simp_all [DailyRiskState.update_status]
  | exit_trade t =>
    simp only [RiskGovernor.step, RiskGovernor.record_trade_exit]
    exact check_limits_hard_mono _ (by simp [h])
  | unrealized a => simpa [RiskGovernor.step, RiskGovernor.update_unrealized_pnl] using h
  | check p => simpa [RiskGovernor.step] using h

lemma step_trades_taken_entry (g : RiskGovernor) (s : DailyRiskState) (p : TradePlan) :
    (g.step s (.entry p)).trades_taken = s.trades_taken + 1 := by
  simp only [RiskGovernor.step, RiskGovernor.record_trade_entry]
  split_ifs <;> simp [DailyRiskState.update_status]

lemma step_trades_taken_other (g : RiskGovernor) (s : DailyRiskState) (op : GovernorOp)
    (hop : ∀ p, op ≠ .entry p) : (g.step s op).trades_taken = s.trades_taken := by
  cases op with
  | entry p => exact absurd rfl (hop p)
  | exit_trade t =>
    simp only [RiskGovernor.step, RiskGovernor.record_trade_exit, RiskGovernor.check_limits]
    split_ifs <;> simp [DailyRiskState.update_status]
  | unrealized a => simp [RiskGovernor.step, RiskGovernor.update_unrealized_pnl]
  | check p => simp [RiskGovernor.step]

lemma step_max_trades (g : RiskGovernor) (s : DailyRiskState) (op : GovernorOp) :
    (g.step s op).max_trades = s.max_trades := by
  cases op with
  | entry p =>
    simp only [RiskGovernor.step, RiskGovernor.record_trade_entry]
    split_ifs <;> simp [DailyRiskState.update_status]
  | exit_trade t =>
    simp only [RiskGovernor.step, RiskGovernor.record_trade_exit, RiskGovernor.check_limits]
    split_ifs <;> simp [DailyRiskState.update_status]
  | unrealized a => simp [RiskGovernor.step, RiskGovernor.update_unrealized_pnl]
  | check p => simp [RiskGovernor.step]

lemma run_trades_taken (g : RiskGovernor) (s : DailyRiskState) (ops : List GovernorOp) :
    (g.run s ops).trades_taken = s.trades_taken + countEntries ops := by
  induction ops generalizing s with
  | nil => simp [RiskGovernor.run, countEntries]
  | cons op ops ih =>
    rw [RiskGovernor.run, ih]
    cases op with
    | entry p => rw [step_trades_taken_entry, countEntries]; ring
    | exit_trade t =>
      rw [step_trades_taken_other g s (.exit_trade t) (fun p h => GovernorOp.noConfusion h),
        countEntries]
    | unrealized a =>
      rw [step_trades_taken_other g s (.unrealized a) (fun p h => GovernorOp.noConfusion h),
        countEntries]
    | check p =>
      rw [step_trades_taken_other g s (.check p) (fun q h => GovernorOp.noConfusion h),
        countEntries]

lemma run_max_trades (g : RiskGovernor) (s : DailyRiskState) (ops : List GovernorOp) :
    (g.run s ops).max_trades = s.max_trades := by
  induction ops generalizing s with
  | nil => simp [RiskGovernor.run]
  | cons op ops ih => rw [RiskGovernor.run, ih, step_max_trades]

/-! ## C2 -/

/-- C2 (confirmed): hard shutdown is monotone within the day: once the flag
is true, no sequence of record_trade_entry / record_trade_exit /
update_unrealized_pnl / check_trade_risk operations resets it. -/
theorem hard_shutdown_monotone (g : RiskGovernor) (s : DailyRiskState)
    (ops : List GovernorOp) (h : s.hard_shutdown = true) :
    (g.run s ops).hard_shutdown = true := by
  induction ops generalizing s with
  | nil => simpa [RiskGovernor.run] using h
  | cons op ops ih => exact ih _ (step_hard_mono g s op h)

def wit_governor : RiskGovernor := ⟨500000, 2, 1.5, 2, 2⟩

def wit_zone : EntryZone := ⟨51640, 51700, 51682⟩

def wit_plan : TradePlan :=
  ⟨.futures, .long, wit_zone, 51382, 52132, 52432, 300, 450, 750, 1.5, 2.5,
    1, 15, 4500, .pending, true, [], 0.5⟩

def wit_loss_trade : ExecutedTrade := ⟨-3000, some false⟩

def wit_shutdown_state : DailyRiskState :=
  { wit_governor.init_day with hard_shutdown := true }

/-- Witness for C2 at a concrete shut-down state and operation sequence. -/
theorem hard_shutdown_monotone_witness :
    (wit_governor.run wit_shutdown_state
      [.exit_trade wit_loss_trade, .unrealized 500, .entry wit_plan,
        .check wit_plan]).hard_shutdown = true :=
  hard_shutdown_monotone wit_governor wit_shutdown_state
    [.exit_trade wit_loss_trade, .unrealized 500, .entry wit_plan, .check wit_plan] rfl

/-! ## C4 -/

/-- C4 (confirmed): after at least max_trades entries are recorded on an
initialized day, check_trade_risk rejects every plan. -/
theorem daily_trade_cap (g : RiskGovernor) (ops : List GovernorOp) (plan : TradePlan)
    (h : g.max_trades ≤ countEntries ops) :
    (g.check_trade_risk (g.run g.init_day ops) plan).is_allowed = false := by
  have ht : (g.run g.init_day ops).trades_taken = countEntries ops := by
    rw [run_trades_taken]; simp [RiskGovernor.init_day]
  have hm : (g.run g.init_day ops).max_trades = g.max_trades := by
    rw [run_max_trades]; simp [RiskGovernor.init_day]
  by_cases hs : (g.run g.init_day ops).hard_shutdown
  · simp [RiskGovernor.check_trade_risk, hs, RiskGovernor.create_result]
  · have hcap : (g.run g.init_day ops).trades_taken ≥ (g.run g.init_day ops).max_trades := by
      rw [ht, hm]; exact h
    simp [RiskGovernor.check_trade_risk, hs, hcap, RiskGovernor.create_result]

/-- Witness for C4: two entries against a two-trade cap, then a check. -/
theorem daily_trade_cap_witness :
    (wit_governor.check_trade_risk
      (wit_governor.run wit_governor.init_day [.entry wit_plan, .entry wit_plan])
      wit_plan).is_allowed = false :=
  daily_trade_cap wit_governor [.entry wit_plan, .entry wit_plan] wit_plan
    (by norm_num [wit_governor, countEntries])

/-! ## C5 -/

/-- C5 (confirmed): the confluence direction is long iff the bullish count
strictly exceeds bearish + neutral, short iff bearish strictly exceeds
bullish + neutral, and neutral otherwise. -/
theorem confluence_direction_rule (signals : List IndicatorSignal)
    (h5 : signals.length = 5) (min_score : ℚ) (rd : Option SignalDirection) :
    ((calculate_confluence min_score signals rd).direction = .long
      ↔ (calculate_confluence min_score signals rd).bullish_count
        > (calculate_confluence min_score signals rd).bearish_count
          + (calculate_confluence min_score signals rd).neutral_count)
    ∧ ((calculate_confluence min_score signals rd).direction = .short
      ↔ (calculate_confluence min_score signals rd).bearish_count
        > (calculate_confluence min_score signals rd).bullish_count
          + (calculate_confluence min_score signals rd).neutral_count)
    ∧ ((calculate_confluence min_score signals rd).direction = .neutral
      ↔ (¬ (calculate_confluence min_score signals rd).bullish_count
        > (calculate_confluence min_score signals rd).bearish_count
          + (calculate_confluence min_score signals rd).neutral_count
        ∧ ¬ (calculate_confluence min_score signals rd).bearish_count
        > (calculate_confluence min_score signals rd).bullish_count
          + (calculate_confluence min_score signals rd).neutral_count)) := by
  simp only [calculate_confluence]
  split_ifs with h1 h2 <;> simp_all <;> omega

def wit_signals : List IndicatorSignal :=
  [⟨.long, 2⟩, ⟨.long, 2⟩, ⟨.long, 1.5⟩, ⟨.long, 2⟩, ⟨.short, 1⟩]

/-- Witness for C5 at five concrete indicator outputs (4 bullish, 1 bearish). -/
theorem confluence_direction_rule_witness :
    ((calculate_confluence 7 wit_signals none).direction = .long
      ↔ (calculate_confluence 7 wit_signals none).bullish_count
        > (calculate_confluence 7 wit_signals none).bearish_count
          + (calculate_confluence 7 wit_signals none).neutral_count)
    ∧ ((calculate_confluence 7 wit_signals none).direction = .short
      ↔ (calculate_confluence 7 wit_signals none).bearish_count
        > (calculate_confluence 7 wit_signals none).bullish_count
          + (calculate_confluence 7 wit_signals none).neutral_count)
    ∧ ((calculate_confluence 7 wit_signals none).direction = .neutral
      ↔ (¬ (calculate_confluence 7 wit_signals none).bullish_count
        > (calculate_confluence 7 wit_signals none).bearish_count
          + (calculate_confluence 7 wit_signals none).neutral_count
        ∧ ¬ (calculate_confluence 7 wit_signals none).bearish_count
        > (calculate_confluence 7 wit_signals none).bullish_count
          + (calculate_confluence 7 wit_signals none).neutral_count)) :=
  confluence_direction_rule wit_signals (by norm_num [wit_signals]) 7 none

/-! ## C8 -/

def wit_builder : TradeBuilder := ⟨500000, 1, 2⟩

/-- C8 (corrected): lots = int(max-risk / (risk-points × lot-size)) clamped
to [1, 5]; the count is always in [1, 5]; and the count is antitone in
risk-points (a wider stop never increases it) — the claim had the
direction of the monotonicity reversed. -/
theorem position_size_formula_bounds (b : TradeBuilder) (r r2 : ℚ)
    (it it2 : InstrumentType) (hr : 0 < r) (hk : 0 ≤ b.max_risk_amount) (hle : r ≤ r2) :
    b.calculate_position_size r it
      = max 1 (min (pytrunc (b.max_risk_amount / (r * (b.lot_size : ℚ)))) 5)
    ∧ 1 ≤ b.calculate_position_size r it
    ∧ b.calculate_position_size r it ≤ 5
    ∧ b.calculate_position_size r2 it2 ≤ b.calculate_position_size r it := by
  have hr2 : 0 < r2 := lt_of_lt_of_le hr hle
  have hlot : (0 : ℚ) < (b.lot_size : ℚ) := by norm_num [TradeBuilder.lot_size]
  have hform : ∀ q : ℚ, 0 < q → ∀ jt : InstrumentType,
      b.calculate_position_size q jt
        = max 1 (min (pytrunc (b.max_risk_amount / (q * (b.lot_size : ℚ)))) 5) := by
    intro q hq jt
    simp [TradeBuilder.calculate_position_size, not_le.mpr hq]
  refine ⟨hform r hr it, ?_, ?_, ?_⟩
  · rw [hform r hr it]; exact le_max_left _ _
  · rw [hform r hr it]
    exact max_le (by norm_num) (min_le_right _ _)
  · rw [hform r hr it, hform r2 hr2 it2]
    have hdenom : 0 < r * (b.lot_size : ℚ) := mul_pos hr hlot
    have hdenom2 : 0 < r2 * (b.lot_size : ℚ) := mul_pos hr2 hlot
    have hdiv : b.max_risk_amount / (r2 * (b.lot_size : ℚ))
        ≤ b.max_risk_amount / (r * (b.lot_size : ℚ)) := by
      gcongr
    have htr : pytrunc (b.max_risk_amount / (r2 * (b.lot_size : ℚ)))
        ≤ pytrunc (b.max_risk_amount / (r * (b.lot_size : ℚ))) :=
      pytrunc_mono_of_nonneg (div_nonneg hk (le_of_lt hdenom2)) hdiv
    exact max_le_max le_rfl (min_le_min htr le_rfl)

/-- Witness for C8 at concrete sizes (risk 100 then 150 points). -/
theorem position_size_formula_bounds_witness :
    wit_builder.calculate_position_size 100 .futures
      = max 1 (min (pytrunc (wit_builder.max_risk_amount / (100 * (wit_builder.lot_size : ℚ)))) 5)
    ∧ 1 ≤ wit_builder.calculate_position_size 100 .futures
    ∧ wit_builder.calculate_position_size 100 .futures ≤ 5
    ∧ wit_builder.calculate_position_size 150 .futures
      ≤ wit_builder.calculate_position_size 100 .futures :=
  position_size_formula_bounds wit_builder 100 150 .futures .futures (by norm_num)
    (by norm_num [TradeBuilder.max_risk_amount, wit_builder]) (by norm_num)

/-- C8 counterexample: decreasing risk-points from 100 to 50 at fixed
max-risk 5000 increases the lot count from 3 to 5, so decreasing
risk-points does not leave the lot count non-increasing as claimed. -/
theorem position_size_monotone_cex :
    wit_builder.calculate_position_size 100 .futures = 3
    ∧ wit_builder.calculate_position_size 50 .futures = 5
    ∧ ¬ (wit_builder.calculate_position_size 50 .futures
        ≤ wit_builder.calculate_position_size 100 .futures) := by
  refine ⟨?_, ?_, ?_⟩ <;>
    norm_num [TradeBuilder.calculate_position_size, wit_builder,
      TradeBuilder.max_risk_amount, TradeBuilder.lot_size, pytrunc]

/-! ## C9 -/

/-- C9 (corrected): rejection because risk_amount exceeds remaining
capacity carries suggested lots = int(remaining / (risk-points ×
lot-size)) when that value is at least 1 (where it equals the claimed
max(1, floor(...))); but when the floor is 0 — or the remaining capacity
or risk-per-lot is nonpositive — the result carries no suggestion (None),
not the claimed 1. -/
theorem risk_reject_suggested_size (g : RiskGovernor) (s : DailyRiskState)
    (plan : TradePlan) (h1 : s.hard_shutdown = false)
    (h2 : s.trades_taken < s.max_trades)
    (h3 : -s.max_daily_loss_amount < s.total_pnl)
    (h4 : s.remaining_risk_capacity < plan.risk_amount) :
    (g.check_trade_risk s plan).is_allowed = false
    ∧ (0 < s.remaining_risk_capacity →
        0 < plan.risk_points * (plan.lot_size : ℚ) →
        1 ≤ pytrunc (s.remaining_risk_capacity / (plan.risk_points * (plan.lot_size : ℚ))) →
        (g.check_trade_risk s plan).suggested_position_size
          = some (pytrunc (s.remaining_risk_capacity / (plan.risk_points * (plan.lot_size : ℚ)))))
    ∧ (s.remaining_risk_capacity ≤ 0 →
        (g.check_trade_risk s plan).suggested_position_size = none)
    ∧ (0 < s.remaining_risk_capacity → plan.risk_points * (plan.lot_size : ℚ) ≤ 0 →
        (g.check_trade_risk s plan).suggested_position_size = none)
    ∧ (0 < s.remaining_risk_capacity → 0 < plan.risk_points * (plan.lot_size : ℚ) →
        pytrunc (s.remaining_risk_capacity / (plan.risk_points * (plan.lot_size : ℚ))) < 1 →
        (g.check_trade_risk s plan).suggested_position_size = none) := by
  have hck : g.check_trade_risk s plan
      = RiskGovernor.create_result s plan false [.risk_exceeds_capacity] [] := by
    simp [RiskGovernor.check_trade_risk, h1, not_le.mpr h2, not_le.mpr h3, h4]
  rw [hck]
  refine ⟨by simp [RiskGovernor.create_result], ?_, ?_, ?_, ?_⟩
  · intro hrem hrpl hfl
    have hmax : pytrunc (s.remaining_risk_capacity
        / (plan.risk_points * (plan.lot_size : ℚ))) > 0 := by omega
    simp [RiskGovernor.create_result, RiskGovernor.suggest_position_size,
      not_le.mpr hrem, not_le.mpr hrpl, hmax, max_eq_right hfl]
  · intro hrem
    simp [RiskGovernor.create_result, RiskGovernor.suggest_position_size, hrem]
  · intro hrem hrpl
    simp [RiskGovernor.create_result, RiskGovernor.suggest_position_size,
      not_le.mpr hrem, hrpl]
  · intro hrem hrpl hfl
    simp [RiskGovernor.create_result, RiskGovernor.suggest_position_size,
      not_le.mpr hrem, not_le.mpr hrpl]
    omega

def wit_reject_state : DailyRiskState :=
  { wit_governor.init_day with remaining_risk_capacity := 100 }

def wit_reject_plan : TradePlan :=
  ⟨.futures, .long, wit_zone, 51672, 51697, 51707, 10, 25, 35, 2.5, 3.5,
    1, 15, 150, .pending, true, [], 0.5⟩

/-- Witness for C9: capacity 100, plan risking 150 (10 points × 1 lot × 15). -/
theorem risk_reject_suggested_size_witness :
    (wit_governor.check_trade_risk wit_reject_state wit_reject_plan).is_allowed = false
    ∧ (0 < wit_reject_state.remaining_risk_capacity →
        0 < wit_reject_plan.risk_points * (wit_reject_plan.lot_size : ℚ) →
        1 ≤ pytrunc (wit_reject_state.remaining_risk_capacity
          / (wit_reject_plan.risk_points * (wit_reject_plan.lot_size : ℚ))) →
        (wit_governor.check_trade_risk wit_reject_state wit_reject_plan).suggested_position_size
          = some (pytrunc (wit_reject_state.remaining_risk_capacity
            / (wit_reject_plan.risk_points * (wit_reject_plan.lot_size : ℚ)))))
    ∧ (wit_reject_state.remaining_risk_capacity ≤ 0 →
        (wit_governor.check_trade_risk wit_reject_state wit_reject_plan).suggested_position_size
          = none)
    ∧ (0 < wit_reject_state.remaining_risk_capacity →
        wit_reject_plan.risk_points * (wit_reject_plan.lot_size : ℚ) ≤ 0 →
        (wit_governor.check_trade_risk wit_reject_state wit_reject_plan).suggested_position_size
          = none)
    ∧ (0 < wit_reject_state.remaining_risk_capacity →
        0 < wit_reject_plan.risk_points * (wit_reject_plan.lot_size : ℚ) →
        pytrunc (wit_reject_state.remaining_risk_capacity
          / (wit_reject_plan.risk_points * (wit_reject_plan.lot_size : ℚ))) < 1 →
        (wit_governor.check_trade_risk wit_reject_state wit_reject_plan).suggested_position_size
          = none) :=
  risk_reject_suggested_size wit_governor wit_reject_state wit_reject_plan
    (by norm_num [wit_reject_state, wit_governor, RiskGovernor.init_day])
    (by norm_num [wit_reject_state, wit_governor, RiskGovernor.init_day])
    (by norm_num [wit_reject_state, wit_governor, RiskGovernor.init_day,
      RiskGovernor.max_daily_loss_amount])
    (by norm_num [wit_reject_state, wit_reject_plan, wit_governor, RiskGovernor.init_day])

/-- C9 counterexample: with remaining capacity 100 and risk-per-lot 150 the
claimed suggestion max(1, floor(100/150)) = 1, but the code returns no
suggestion at all (None). -/
theorem risk_reject_suggested_size_cex :
    (wit_governor.check_trade_risk wit_reject_state wit_reject_plan).is_allowed = false
    ∧ (wit_governor.check_trade_risk wit_reject_state wit_reject_plan).suggested_position_size
      = none
    ∧ max 1 (pytrunc ((100 : ℚ) / 150)) = 1
    ∧ (wit_governor.check_trade_risk wit_reject_state wit_reject_plan).suggested_position_size
      ≠ some (max 1 (pytrunc ((100 : ℚ) / 150))) := by
  have hck : wit_governor.check_trade_risk wit_reject_state wit_reject_plan
      = RiskGovernor.create_result wit_reject_state wit_reject_plan false
        [.risk_exceeds_capacity] [] := by
    norm_num [RiskGovernor.check_trade_risk, wit_reject_state, wit_reject_plan,
      wit_governor, RiskGovernor.init_day, RiskGovernor.max_daily_loss_amount]
  have hsug : (RiskGovernor.create_result wit_reject_state wit_reject_plan false
      [.risk_exceeds_capacity] []).suggested_position_size = none := by
    norm_num [RiskGovernor.create_result, RiskGovernor.suggest_position_size,
      wit_reject_state, wit_reject_plan, wit_governor, RiskGovernor.init_day, pytrunc]
  rw [hck]
  refine ⟨by simp [RiskGovernor.create_result], hsug, by norm_num [pytrunc], ?_⟩
  rw [hsug]
  simp

/-! ## C6 -/

lemma append_size (b : DataBuffer) (i t : ℚ) :
    (b.append i t).size = min (b.size + 1) b.max_size := by
  simp [DataBuffer.append, DataBuffer.size]
  omega

lemma append_min_fill (b : DataBuffer) (i t : ℚ) :
    (b.append i t).min_fill_count = b.min_fill_count := by
  simp [DataBuffer.append, DataBuffer.min_fill_count]

lemma clear_min_fill (b : DataBuffer) :
    b.clear.min_fill_count = b.min_fill_count := by
  simp [DataBuffer.clear, DataBuffer.min_fill_count]

lemma run_min_fill (b : DataBuffer) (ops : List BufferOp) :
    (b.run ops).min_fill_count = b.min_fill_count := by
  induction ops generalizing b with
  | nil => simp [DataBuffer.run]
  | cons op ops ih =>
    cases op with
    | append i t => rw [DataBuffer.run, ih, append_min_fill]
    | clear => rw [DataBuffer.run, ih, clear_min_fill]

lemma run_size_le (b : DataBuffer) (ops : List BufferOp) :
    (b.run ops).size ≤ b.size + countAppends ops := by
  induction ops generalizing b with
  | nil => simp [DataBuffer.run]
  | cons op ops ih =>
    cases op with
    | append i t =>
      rw [DataBuffer.run, countAppends]
      calc ((b.append i t).run ops).size ≤ (b.append i t).size + countAppends ops := ih _
        _ ≤ b.size + (1 + countAppends ops) := by rw [append_size]; omega
    | clear =>
      rw [DataBuffer.run, countAppends]
      calc (b.clear.run ops).size ≤ b.clear.size + countAppends ops := ih _
        _ ≤ b.size + countAppends ops := by simp [DataBuffer.clear, DataBuffer.size]

lemma status_ready_size (b : DataBuffer) (staleness_limit now : ℚ)
    (h : b.status staleness_limit now = .ready) :
    b.min_fill_count ≤ (b.size : ℤ) := by
  by_cases hr : b.is_ready = true
  · simpa [DataBuffer.is_ready] using hr
  · exfalso
    have hr2 : b.is_ready = false := by
      cases hb : b.is_ready with
      | true => exact absurd hb hr
      | false => rfl
    by_cases he : b.is_empty = true <;>
      simp [DataBuffer.status, he, hr2] at h

/-- C6 (corrected): trade_allowed holds exactly when the status is READY;
READY implies size ≥ int(capacity × min-fill-pct / 100) — Python int()
truncation, not the ceiling the claim states — and after clear() trading
stays disallowed while fewer than that many items have been appended. -/
theorem buffer_warmup_gate (b : DataBuffer) (staleness_limit now : ℚ)
    (ops : List BufferOp)
    (hcount : (countAppends ops : ℤ) < b.min_fill_count) :
    (b.trade_allowed staleness_limit now = true
      ↔ b.status staleness_limit now = .ready)
    ∧ (b.status staleness_limit now = .ready → b.min_fill_count ≤ (b.size : ℤ))
    ∧ (b.clear.run ops).trade_allowed staleness_limit now = false := by
  refine ⟨by simp [DataBuffer.trade_allowed], status_ready_size b staleness_limit now, ?_⟩
  have hsz : ((b.clear.run ops).size : ℤ) < (b.clear.run ops).min_fill_count := by
    have h1 : (b.clear.run ops).size ≤ countAppends ops := by
      have := run_size_le b.clear ops
      simpa [DataBuffer.clear, DataBuffer.size] using this
    have h2 : (b.clear.run ops).min_fill_count = b.min_fill_count := by
      rw [run_min_fill, clear_min_fill]
    omega
  have hnr : (b.clear.run ops).is_ready = false := by
    simp [DataBuffer.is_ready]
    omega
  by_cases he : (b.clear.run ops).is_empty = true <;>
    simp [DataBuffer.trade_allowed, DataBuffer.status, he, hnr]

def wit_buffer : DataBuffer := ⟨10, 80, [], none⟩

/-- Witness for C6: capacity 10, min-fill 80%, 7 appends stay below the
8-item warm-up threshold. -/
theorem buffer_warmup_gate_witness :
    (wit_buffer.trade_allowed 5 3 = true ↔ wit_buffer.status 5 3 = .ready)
    ∧ (wit_buffer.status 5 3 = .ready → wit_buffer.min_fill_count ≤ (wit_buffer.size : ℤ))
    ∧ (wit_buffer.clear.run
        [.append 0 0, .append 0 1, .append 0 1, .append 0 2, .append 0 2,
          .append 0 3, .append 0 3]).trade_allowed 5 3 = false :=
  buffer_warmup_gate wit_buffer 5 3
    [.append 0 0, .append 0 1, .append 0 1, .append 0 2, .append 0 2,
      .append 0 3, .append 0 3]
    (by norm_num [countAppends, wit_buffer, DataBuffer.min_fill_count, pytrunc])

def cex_buffer : DataBuffer :=
  DataBuffer.run ⟨30, 55, [], none⟩ (List.replicate 16 (BufferOp.append 0 0))

/-- C6 counterexample: capacity 30 with min-fill 55% is READY after 16
appends (int(16.5) = 16), yet 16 < ceil(30 × 55 / 100) = 17, refuting the
ceiling form of the warm-up bound. -/
theorem buffer_warmup_ceil_cex :
    cex_buffer.status 5 0 = .ready
    ∧ cex_buffer.size = 16
    ∧ ((cex_buffer.size : ℤ) < ⌈((30 : ℚ) * 55 / 100)⌉) := by
  have hb : cex_buffer = ⟨30, 55, List.replicate 16 0, some 0⟩ := by
    norm_num [cex_buffer, DataBuffer.run, DataBuffer.append, List.replicate]
  have hceil : ⌈((30 : ℚ) * 55 / 100)⌉ = 17 := by
    rw [show ((30 : ℚ) * 55 / 100) = 33/2 by norm_num, Int.ceil_eq_iff] <;> norm_num
  rw [hb, hceil]
  refine ⟨?_, by simp [DataBuffer.size], by simp [DataBuffer.size]⟩
  norm_num [DataBuffer.status, DataBuffer.is_empty, DataBuffer.is_ready,
    DataBuffer.size, DataBuffer.min_fill_count, pytrunc]

/-! ## C3 -/

lemma detect_conflicts_reasons (ds : List SignalDirection) (bu : BuildupType)
    (pi : PcrInterpretation) (ivt : IvTrend)
    (h : (detect_conflicts ds bu pi ivt).1 = true) :
    (detect_conflicts ds bu pi ivt).2 ≠ [] := by
  simp only [detect_conflicts] at h ⊢
  split_ifs at h ⊢ <;> simp_all

lemma build_none_of_invalid (b : TradeBuilder) (sig : TradeSignal)
    (snap : MarketSnapshot) (regime : MarketRegime) (conf : ConfluenceScore)
    (oi : OptionsIntelligence) (h : sig.is_valid = false) :
    b.build_trade_plan sig snap regime conf oi = none := by
  simp [TradeBuilder.build_trade_plan, h]

lemma conflict_confidence_zero (ds : List SignalDirection) (bu : BuildupType)
    (pi : PcrInterpretation) (ivt : IvTrend) (ivs : IvStatus)
    (h : (detect_conflicts ds bu pi ivt).1 = true) :
    calculate_confidence ds (detect_conflicts ds bu pi ivt).2 ivs = 0 := by
  have hne := detect_conflicts_reasons ds bu pi ivt h
  simp [calculate_confidence, hne]

/-- C3 (confirmed): a detected options conflict forces direction = neutral
and confidence = 0, and the fused signal built from such a result is
invalid, so build_trade_plan returns None for it. -/
theorem options_conflict_no_trade (st : OptionsEngineState) (chain : OptionsChain)
    (spot_price : ℚ)
    (hconf : (analyze st chain spot_price).1.has_conflict = true)
    (rta : Bool) (conf conf2 : ConfluenceScore) (b : TradeBuilder)
    (snap : MarketSnapshot) (regime : MarketRegime) :
    (analyze st chain spot_price).1.direction = .neutral
    ∧ (analyze st chain spot_price).1.confidence = 0
    ∧ (fuse_signal rta conf (analyze st chain spot_price).1).is_valid = false
    ∧ b.build_trade_plan (fuse_signal rta conf (analyze st chain spot_price).1)
        snap regime conf2 (analyze st chain spot_price).1 = none := by
  have hval : (fuse_signal rta conf (analyze st chain spot_price).1).is_valid = false := by
    simp only [analyze] at hconf ⊢
    simp only [fuse_signal]
    rw [hconf]
    simp
  refine ⟨?_, ?_, hval, build_none_of_invalid b _ snap regime conf2 _ hval⟩
  · simp only [analyze] at hconf ⊢
    rw [hconf]
    simp
  · simp only [analyze] at hconf ⊢
    exact conflict_confidence_zero _ _ _ _ _ hconf

def wit_engine_state : OptionsEngineState := ⟨none, none, []⟩

/-- PCR 50/100 = 0.5 (bearish) while the puts build OI (long buildup):
a conflicting chain. -/
def wit_conflict_chain : OptionsChain :=
  ⟨100, 100, [⟨100, 10, 100, 0, ⟨0, 20⟩⟩], [⟨100, 10, 50, 10, ⟨0, 20⟩⟩]⟩

def wit_confluence : ConfluenceScore := ⟨8, 10, .long, true, 4, 1, 0⟩

def wit_ohlcv : OHLCV := ⟨51300, 51700, 51300, 51500, 1000⟩

def wit_snapshot : MarketSnapshot :=
  ⟨⟨51500, wit_ohlcv⟩, ⟨51700, wit_ohlcv⟩, wit_conflict_chain⟩

def wit_regime : MarketRegime := ⟨some ⟨51600, 51400, true⟩, true⟩

/-- Witness for C3 at a concrete conflicting chain. -/
theorem options_conflict_no_trade_witness :
    (analyze wit_engine_state wit_conflict_chain 100).1.direction = .neutral
    ∧ (analyze wit_engine_state wit_conflict_chain 100).1.confidence = 0
    ∧ (fuse_signal true wit_confluence
        (analyze wit_engine_state wit_conflict_chain 100).1).is_valid = false
    ∧ wit_builder.build_trade_plan
        (fuse_signal true wit_confluence (analyze wit_engine_state wit_conflict_chain 100).1)
        wit_snapshot wit_regime wit_confluence
        (analyze wit_engine_state wit_conflict_chain 100).1 = none :=
  options_conflict_no_trade wit_engine_state wit_conflict_chain 100
    (by norm_num [analyze, wit_engine_state, wit_conflict_chain, OptionsChain.pcr,
      OptionsChain.total_call_oi, OptionsChain.total_put_oi, OptionsChain.atm_call,
      OptionsChain.atm_put, OptionsChain.atm_straddle_premium, List.find?,
      analyze_oi_changes, interpret_pcr, pcr_bullish_threshold, pcr_bearish_threshold,
      analyze_oi_walls, calculate_iv_percentile, get_iv_status, get_iv_trend,
      OptionsChain.call_walls, OptionsChain.put_walls, sortDescOI, insertDescOI,
      OptionsChain.get_max_pain, sortAsc, insertAsc, OptionsChain.pain_at,
      detect_conflicts, iv_lookback, List.dedup, List.countP, List.foldl])
    true wit_confluence wit_confluence wit_builder wit_snapshot wit_regime

/-! ## C7 -/

/-- The atr-estimate as the claim words it: max(session range × 0.5, 0.2% of
the current price).  The code instead uses an if/else (entry_atr_estimate)
for the entry zone and the bare range × 0.5 for the stop-loss buffer. -/
def spec_atr_estimate (current_price : ℚ) (snapshot : MarketSnapshot) : ℚ :=
  max (snapshot.spot.ohlcv.range * 0.5) (current_price * 0.002)

def cex_entry_snapshot : MarketSnapshot :=
  ⟨⟨10000, ⟨9995, 10005, 9995, 10000, 1000⟩⟩,
   ⟨10000, ⟨9995, 10005, 9995, 10000, 1000⟩⟩, wit_conflict_chain⟩

def cex_regime : MarketRegime := ⟨none, true⟩

/-- C7 counterexample: at price 10000 with session range 10 the coded
entry-zone width is 0.3 × (10 × 0.5) = 1.5 and its stop-loss buffer is
1.5 × (10 × 0.5) = 7.5, while the claimed atr-estimate max(5, 20) = 20
would give width 6 and buffer 30. -/
theorem entry_zone_max_atr_cex :
    ((wit_builder.calculate_entry_zone 10000 .long cex_regime cex_entry_snapshot).upper
      - (wit_builder.calculate_entry_zone 10000 .long cex_regime cex_entry_snapshot).lower)
      = 3/2
    ∧ 0.3 * spec_atr_estimate 10000 cex_entry_snapshot = 6
    ∧ ((wit_builder.calculate_entry_zone 10000 .long cex_regime cex_entry_snapshot).upper
      - (wit_builder.calculate_entry_zone 10000 .long cex_regime cex_entry_snapshot).lower)
      ≠ 0.3 * spec_atr_estimate 10000 cex_entry_snapshot
    ∧ TradeBuilder.sl_buffer cex_regime cex_entry_snapshot = 15/2
    ∧ 1.5 * spec_atr_estimate 10000 cex_entry_snapshot = 30
    ∧ TradeBuilder.sl_buffer cex_regime cex_entry_snapshot
      ≠ 1.5 * spec_atr_estimate 10000 cex_entry_snapshot := by
  have hz : wit_builder.calculate_entry_zone 10000 .long cex_regime cex_entry_snapshot
      = ⟨19997/2, 10000, 999955/100⟩ := by
    norm_num [TradeBuilder.calculate_entry_zone, TradeBuilder.entry_atr_estimate,
      cex_entry_snapshot, OHLCV.range, round2, rhe]
  rw [hz]
  refine ⟨by norm_num, ?_, ?_, ?_, ?_, ?_⟩ <;>
    norm_num [spec_atr_estimate, TradeBuilder.sl_buffer, cex_regime,
      cex_entry_snapshot, OHLCV.range]

/-- C7 (corrected): the entry zone uses atr-estimate = range × 0.5 when the
session range is positive and 0.2% of price otherwise (an if/else, not a
max); zone width 0.3 × atr-estimate around the price with optimal at
0.3 × width inside, each bound rounded to 2 decimals; the stop-loss buffer
is max(1.5 × (range × 0.5), 0.5 × OR range) when the opening range is
captured, and the stop is pulled beyond the OR edge by 10 points when that
edge is inside the entry side. -/
theorem entry_zone_atr_formulas (b : TradeBuilder) (price entry : ℚ)
    (regime : MarketRegime) (snap : MarketSnapshot) (orng : OpeningRange)
    (hor : regime.opening_range = some orng) (hcap : orng.captured = true) :
    TradeBuilder.entry_atr_estimate price snap
      = (if snap.spot.ohlcv.range > 0 then snap.spot.ohlcv.range * 0.5
          else price * 0.002)
    ∧ (b.calculate_entry_zone price .long regime snap)
      = ⟨round2 (price - 0.3 * TradeBuilder.entry_atr_estimate price snap),
         round2 price,
         round2 (price - 0.3 * (0.3 * TradeBuilder.entry_atr_estimate price snap))⟩
    ∧ (b.calculate_entry_zone price .short regime snap)
      = ⟨round2 price,
         round2 (price + 0.3 * TradeBuilder.entry_atr_estimate price snap),
         round2 (price + 0.3 * (0.3 * TradeBuilder.entry_atr_estimate price snap))⟩
    ∧ TradeBuilder.sl_buffer regime snap
      = max (1.5 * (snap.spot.ohlcv.range * 0.5)) (0.5 * orng.range)
    ∧ b.calculate_stop_loss entry .long regime snap
      = (if orng.low < entry
          then min (entry - TradeBuilder.sl_buffer regime snap) (orng.low - 10)
          else entry - TradeBuilder.sl_buffer regime snap)
    ∧ b.calculate_stop_loss entry .short regime snap
      = (if orng.high > entry
          then max (entry + TradeBuilder.sl_buffer regime snap) (orng.high + 10)
          else entry + TradeBuilder.sl_buffer regime snap) := by
  refine ⟨rfl, ?_, ?_, ?_, ?_, ?_⟩
  · simp only [TradeBuilder.calculate_entry_zone]
    rw [show price - TradeBuilder.entry_atr_estimate price snap * 0.3
        = price - 0.3 * TradeBuilder.entry_atr_estimate price snap by ring,
      show price - TradeBuilder.entry_atr_estimate price snap * 0.3 * 0.3
        = price - 0.3 * (0.3 * TradeBuilder.entry_atr_estimate price snap) by ring]
  · simp only [TradeBuilder.calculate_entry_zone]
    rw [show price + TradeBuilder.entry_atr_estimate price snap * 0.3
        = price + 0.3 * TradeBuilder.entry_atr_estimate price snap by ring,
      show price + TradeBuilder.entry_atr_estimate price snap * 0.3 * 0.3
        = price + 0.3 * (0.3 * TradeBuilder.entry_atr_estimate price snap) by ring]
  · simp only [TradeBuilder.sl_buffer, hor, hcap, if_true]
    congr 1 <;> ring
  · simp only [TradeBuilder.calculate_stop_loss, hor, hcap, true_and]
  · simp only [TradeBuilder.calculate_stop_loss, hor, hcap, true_and]

/-- Witness for C7 at the concrete captured opening range [51400, 51600]. -/
theorem entry_zone_atr_formulas_witness :
    TradeBuilder.entry_atr_estimate 51700 wit_snapshot
      = (if wit_snapshot.spot.ohlcv.range > 0 then wit_snapshot.spot.ohlcv.range * 0.5
          else 51700 * 0.002)
    ∧ (wit_builder.calculate_entry_zone 51700 .long wit_regime wit_snapshot)
      = ⟨round2 (51700 - 0.3 * TradeBuilder.entry_atr_estimate 51700 wit_snapshot),
         round2 51700,
         round2 (51700 - 0.3 * (0.3 * TradeBuilder.entry_atr_estimate 51700 wit_snapshot))⟩
    ∧ (wit_builder.calculate_entry_zone 51700 .short wit_regime wit_snapshot)
      = ⟨round2 51700,
         round2 (51700 + 0.3 * TradeBuilder.entry_atr_estimate 51700 wit_snapshot),
         round2 (51700 + 0.3 * (0.3 * TradeBuilder.entry_atr_estimate 51700 wit_snapshot))⟩
    ∧ TradeBuilder.sl_buffer wit_regime wit_snapshot
      = max (1.5 * (wit_snapshot.spot.ohlcv.range * 0.5))
          (0.5 * (OpeningRange.mk 51600 51400 true).range)
    ∧ wit_builder.calculate_stop_loss 51682 .long wit_regime wit_snapshot
      = (if (OpeningRange.mk 51600 51400 true).low < 51682
          then min (51682 - TradeBuilder.sl_buffer wit_regime wit_snapshot)
            ((OpeningRange.mk 51600 51400 true).low - 10)
          else 51682 - TradeBuilder.sl_buffer wit_regime wit_snapshot)
    ∧ wit_builder.calculate_stop_loss 51682 .short wit_regime wit_snapshot
      = (if (OpeningRange.mk 51600 51400 true).high > 51682
          then max (51682 + TradeBuilder.sl_buffer wit_regime wit_snapshot)
            ((OpeningRange.mk 51600 51400 true).high + 10)
          else 51682 + TradeBuilder.sl_buffer wit_regime wit_snapshot) :=
  entry_zone_atr_formulas wit_builder 51700 51682 wit_regime wit_snapshot
    ⟨51600, 51400, true⟩ rfl rfl

/-! ## C1 and C10 support -/

lemma sl_buffer_nonneg (regime : MarketRegime) (snap : MarketSnapshot)
    (hr : 0 ≤ snap.spot.ohlcv.range) : 0 ≤ TradeBuilder.sl_buffer regime snap := by
  have hb : (0 : ℚ) ≤ snap.spot.ohlcv.range * 0.5 * 1.5 := by
    have := mul_nonneg (mul_nonneg hr (by norm_num : (0:ℚ) ≤ 0.5)) (by norm_num : (0:ℚ) ≤ 1.5)
    linarith
  simp only [TradeBuilder.sl_buffer]
  cases h : regime.opening_range with
  | none => exact hb
  | some orng =>
    dsimp only
    split_ifs
    · exact le_trans hb (le_max_left _ _)
    · exact hb

lemma stop_le_entry_long (b : TradeBuilder) (entry : ℚ) (regime : MarketRegime)
    (snap : MarketSnapshot) (hbuf : 0 ≤ TradeBuilder.sl_buffer regime snap) :
    b.calculate_stop_loss entry .long regime snap ≤ entry := by
  simp only [TradeBuilder.calculate_stop_loss]
  cases h : regime.opening_range with
  | none => dsimp only; linarith
  | some orng =>
    dsimp only
    split_ifs
    · exact le_trans (min_le_left _ _) (by linarith)
    · linarith

lemma entry_le_stop_short (b : TradeBuilder) (entry : ℚ) (regime : MarketRegime)
    (snap : MarketSnapshot) (hbuf : 0 ≤ TradeBuilder.sl_buffer regime snap) :
    entry ≤ b.calculate_stop_loss entry .short regime snap := by
  simp only [TradeBuilder.calculate_stop_loss]
  cases h : regime.opening_range with
  | none => dsimp only; linarith
  | some orng =>
    dsimp only
    split_ifs
    · exact le_trans (by linarith) (le_max_left _ _)
    · linarith

lemma entry_atr_nonneg (price : ℚ) (snap : MarketSnapshot) (hp : 0 ≤ price)
    (hr : 0 ≤ snap.spot.ohlcv.range) :
    0 ≤ TradeBuilder.entry_atr_estimate price snap := by
  simp only [TradeBuilder.entry_atr_estimate]
  split_ifs with h
  · exact mul_nonneg (le_of_lt h) (by norm_num)
  · exact mul_nonneg hp (by norm_num)

lemma zone_order (b : TradeBuilder) (price : ℚ) (dir : TradeDirection)
    (regime : MarketRegime) (snap : MarketSnapshot) (hp : 0 ≤ price)
    (hr : 0 ≤ snap.spot.ohlcv.range) :
    (b.calculate_entry_zone price dir regime snap).lower
      ≤ (b.calculate_entry_zone price dir regime snap).optimal
    ∧ (b.calculate_entry_zone price dir regime snap).optimal
      ≤ (b.calculate_entry_zone price dir regime snap).upper := by
  have hatr := entry_atr_nonneg price snap hp hr
  cases dir <;> simp only [TradeBuilder.calculate_entry_zone] <;>
    exact ⟨round2_mono (by nlinarith), round2_mono (by nlinarith)⟩

lemma zone_optimal_round2 (b : TradeBuilder) (price : ℚ) (dir : TradeDirection)
    (regime : MarketRegime) (snap : MarketSnapshot) :
    round2 (b.calculate_entry_zone price dir regime snap).optimal
      = (b.calculate_entry_zone price dir regime snap).optimal := by
  cases dir <;> simp only [TradeBuilder.calculate_entry_zone] <;> exact round2_round2 _

lemma price_nonneg (b : TradeBuilder) (it : InstrumentType) (snap : MarketSnapshot)
    (hf : 0 ≤ snap.futures.ltp)
    (hcall : ∀ o ∈ snap.options_chain.calls, 0 ≤ o.ltp)
    (hput : ∀ o ∈ snap.options_chain.puts, 0 ≤ o.ltp) :
    0 ≤ b.get_instrument_price it snap := by
  cases it with
  | futures => exact hf
  | call_option =>
    simp only [TradeBuilder.get_instrument_price]
    cases h : snap.options_chain.atm_call with
    | none => simp
    | some o =>
      simpa using hcall o (List.mem_of_find?_eq_some h)
  | put_option =>
    simp only [TradeBuilder.get_instrument_price]
    cases h : snap.options_chain.atm_put with
    | none => simp
    | some o =>
      simpa using hput o (List.mem_of_find?_eq_some h)

lemma reward_t1_abs (b : TradeBuilder) (entry stop : ℚ) (dir : TradeDirection) :
    |(b.calculate_targets entry stop dir).1 - entry| = 1.5 * |entry - stop| := by
  cases dir <;> simp only [TradeBuilder.calculate_targets]
  · rw [show entry + |entry - stop| * 1.5 - entry = |entry - stop| * 1.5 by ring,
      abs_of_nonneg (by positivity)]
    ring
  · rw [show entry - |entry - stop| * 1.5 - entry = -(|entry - stop| * 1.5) by ring,
      abs_neg, abs_of_nonneg (by positivity)]
    ring

lemma reward_t2_abs (b : TradeBuilder) (entry stop : ℚ) (dir : TradeDirection) :
    |(b.calculate_targets entry stop dir).2 - entry| = 2.5 * |entry - stop| := by
  cases dir <;> simp only [TradeBuilder.calculate_targets]
  · rw [show entry + |entry - stop| * 2.5 - entry = |entry - stop| * 2.5 by ring,
      abs_of_nonneg (by positivity)]
    ring
  · rw [show entry - |entry - stop| * 2.5 - entry = -(|entry - stop| * 2.5) by ring,
      abs_neg, abs_of_nonneg (by positivity)]
    ring

lemma validate_true_not_rr (b : TradeBuilder) (rr amt : ℚ) (sz : ℤ)
    (regime : MarketRegime) (h : (b.validate_trade rr amt sz regime).1 = true) :
    ¬ (rr < b.min_risk_reward) := by
  intro hlt
  simp only [TradeBuilder.validate_trade, if_pos hlt] at h
  simp at h

lemma validate_reasons_rr (b : TradeBuilder) (rr amt : ℚ) (sz : ℤ)
    (regime : MarketRegime) :
    PlanRejectReason.rr_below_min ∈ (b.validate_trade rr amt sz regime).2
      ↔ rr < b.min_risk_reward := by
  simp only [TradeBuilder.validate_trade]
  split_ifs with h1 h2 h3 h4 <;> simp_all

lemma round2_five_halves : round2 (5/2) = 5/2 := by
  norm_num [round2, rhe]

lemma round2_three_halves : round2 (3/2) = 3/2 := by
  norm_num [round2, rhe]

/-! ## C1 -/

/-- C1 (corrected): for every plan the builder returns with is_valid = true
(under the data-model invariants: nonnegative session range and prices, and
a positive configured minimum risk-reward) the stored fields satisfy
lower ≤ optimal ≤ upper, long → stop ≤ optimal ≤ T1 ≤ T2, short →
T2 ≤ T1 ≤ optimal ≤ stop, and risk_reward_t2 ≥ the configured minimum.
The claimed strict orderings can collapse to equalities because the stored
fields are rounded to 2 decimals. -/
theorem valid_plan_price_ordering (b : TradeBuilder) (sig : TradeSignal)
    (snap : MarketSnapshot) (regime : MarketRegime) (conf : ConfluenceScore)
    (oi : OptionsIntelligence) (p : TradePlan)
    (hmin : 0 < b.min_risk_reward)
    (hr : 0 ≤ snap.spot.ohlcv.range)
    (hf : 0 ≤ snap.futures.ltp)
    (hcall : ∀ o ∈ snap.options_chain.calls, 0 ≤ o.ltp)
    (hput : ∀ o ∈ snap.options_chain.puts, 0 ≤ o.ltp)
    (hbuild : b.build_trade_plan sig snap regime conf oi = some p)
    (hvalid : p.is_valid = true) :
    p.entry_zone.lower ≤ p.entry_zone.optimal
    ∧ p.entry_zone.optimal ≤ p.entry_zone.upper
    ∧ (p.direction = .long →
        p.stop_loss ≤ p.entry_zone.optimal
        ∧ p.entry_zone.optimal ≤ p.target_1 ∧ p.target_1 ≤ p.target_2)
    ∧ (p.direction = .short →
        p.target_2 ≤ p.target_1 ∧ p.target_1 ≤ p.entry_zone.optimal
        ∧ p.entry_zone.optimal ≤ p.stop_loss)
    ∧ b.min_risk_reward ≤ p.risk_reward_t2 := by
  cases hb : sig.is_valid with
  | false => simp [TradeBuilder.build_trade_plan, hb] at hbuild
  | true =>
    simp only [TradeBuilder.build_trade_plan, hb] at hbuild
    rw [if_neg (show ¬ (true = false) by simp)] at hbuild
    have hrec := (Option.some.inj hbuild).symm
    subst hrec
    dsimp only at hvalid ⊢
    set it := b.select_instrument sig.direction snap oi with hit
    set price := b.get_instrument_price it snap with hprice
    set dir := TradeBuilder.to_trade_direction sig.direction with hdir
    set zone := b.calculate_entry_zone price dir regime snap with hzone
    set stopu := b.calculate_stop_loss zone.optimal dir regime snap with hstopu
    have hp0 : 0 ≤ price := price_nonneg b it snap hf hcall hput
    have hbuf : 0 ≤ TradeBuilder.sl_buffer regime snap := sl_buffer_nonneg regime snap hr
    have hfix : round2 zone.optimal = zone.optimal := by
      rw [hzone]
      exact zone_optimal_round2 b price dir regime snap
    obtain ⟨hlo, hup⟩ : zone.lower ≤ zone.optimal ∧ zone.optimal ≤ zone.upper := by
      rw [hzone]
      exact zone_order b price dir regime snap hp0 hr
    have hnlt := validate_true_not_rr b _ _ _ regime hvalid
    have hru : 0 < |zone.optimal - stopu| := by
      by_contra hnot
      push_neg at hnot
      rw [if_neg (not_lt.mpr hnot)] at hnlt
      exact hnlt hmin
    have hrr2 : (if |zone.optimal - stopu| > 0
        then |(b.calculate_targets zone.optimal stopu dir).2 - zone.optimal|
          / |zone.optimal - stopu|
        else 0) = 5/2 := by
      rw [if_pos hru, reward_t2_abs b zone.optimal stopu dir,
        mul_div_cancel_right₀ _ (ne_of_gt hru)]
      norm_num
    rw [hrr2] at hnlt
    refine ⟨hlo, hup, ?_, ?_, ?_⟩
    · intro hdl
      have h1 : stopu ≤ zone.optimal := by
        rw [hstopu, hdl]
        exact stop_le_entry_long b zone.optimal regime snap hbuf
      have h2 : round2 stopu ≤ zone.optimal := by
        have := round2_mono h1
        rwa [hfix] at this
      have h3 : zone.optimal ≤ (b.calculate_targets zone.optimal stopu dir).1 := by
        rw [hdl]
        simp only [TradeBuilder.calculate_targets]
        nlinarith [abs_nonneg (zone.optimal - stopu)]
      have h4 : zone.optimal ≤ round2 (b.calculate_targets zone.optimal stopu dir).1 := by
        have := round2_mono h3
        rwa [hfix] at this
      have h5 : (b.calculate_targets zone.optimal stopu dir).1
          ≤ (b.calculate_targets zone.optimal stopu dir).2 := by
        rw [hdl]
        simp only [TradeBuilder.calculate_targets]
        nlinarith [abs_nonneg (zone.optimal - stopu)]
      exact ⟨h2, h4, round2_mono h5⟩
    · intro hds
      have h1 : zone.optimal ≤ stopu := by
        rw [hstopu, hds]
        exact entry_le_stop_short b zone.optimal regime snap hbuf
      have h2 : zone.optimal ≤ round2 stopu := by
        have := round2_mono h1
        rwa [hfix] at this
      have h3 : (b.calculate_targets zone.optimal stopu dir).1 ≤ zone.optimal := by
        rw [hds]
        simp only [TradeBuilder.calculate_targets]
        nlinarith [abs_nonneg (zone.optimal - stopu)]
      have h4 : round2 (b.calculate_targets zone.optimal stopu dir).1 ≤ zone.optimal := by
        have := round2_mono h3
        rwa [hfix] at this
      have h5 : (b.calculate_targets zone.optimal stopu dir).2
          ≤ (b.calculate_targets zone.optimal stopu dir).1 := by
        rw [hds]
        simp only [TradeBuilder.calculate_targets]
        nlinarith [abs_nonneg (zone.optimal - stopu)]
      exact ⟨round2_mono h5, h4, h2⟩
    · rw [hrr2, round2_five_halves]
      exact le_of_not_lt hnlt

def wit_signal : TradeSignal := ⟨.long, true, 15⟩

def wit_intel : OptionsIntelligence :=
  ⟨.long, 0.8, 0, 0, .long_buildup, 20, 0, 20, 1.3, 0, .bullish,
    0, 0, 0, 0, 50, .normal, .stable, 51500, 0, false, []⟩

/-- The S3-like valid long plan: price 51700, session range 400, captured
OR [51400, 51600]; the builder yields exactly wit_plan. -/
lemma wit_build_eq :
    wit_builder.build_trade_plan wit_signal wit_snapshot wit_regime wit_confluence wit_intel
      = some wit_plan := by
  have e0 : wit_builder.select_instrument .long wit_snapshot wit_intel
      = .futures := by
    simp [TradeBuilder.select_instrument, wit_intel]
  have e1 : wit_builder.get_instrument_price .futures wit_snapshot = 51700 := rfl
  have edir : TradeBuilder.to_trade_direction .long = .long := rfl
  have eatr : TradeBuilder.entry_atr_estimate 51700 wit_snapshot = 200 := by
    norm_num [TradeBuilder.entry_atr_estimate, wit_snapshot, wit_ohlcv, OHLCV.range]
  have r51640 : round2 51640 = 51640 := round2_num _ 5164000 (by norm_num)
  have r51700 : round2 51700 = 51700 := round2_num _ 5170000 (by norm_num)
  have r51682 : round2 51682 = 51682 := round2_num _ 5168200 (by norm_num)
  have ezone : wit_builder.calculate_entry_zone 51700 .long wit_regime wit_snapshot
      = ⟨51640, 51700, 51682⟩ := by
    simp only [TradeBuilder.calculate_entry_zone, eatr]
    norm_num [r51640, r51700, r51682]
  have ebuf : TradeBuilder.sl_buffer wit_regime wit_snapshot = 300 := by
    norm_num [TradeBuilder.sl_buffer, wit_regime, wit_snapshot, wit_ohlcv,
      OHLCV.range, OpeningRange.range, max_def]
  have hor : wit_regime.opening_range = some ⟨51600, 51400, true⟩ := rfl
  have estop : wit_builder.calculate_stop_loss 51682 .long wit_regime wit_snapshot
      = 51382 := by
    simp only [TradeBuilder.calculate_stop_loss, hor, ebuf]
    norm_num [min_def]
  have etg : wit_builder.calculate_targets 51682 51382 .long = (52132, 52432) := by
    norm_num [TradeBuilder.calculate_targets]
  have epos : wit_builder.calculate_position_size 300 .futures = 1 := by
    norm_num [TradeBuilder.calculate_position_size, wit_builder,
      TradeBuilder.max_risk_amount, TradeBuilder.lot_size, pytrunc]
  have evalid : wit_builder.validate_trade (5/2) 4500 1 wit_regime = (true, []) := by
    norm_num [TradeBuilder.validate_trade, wit_builder,
      TradeBuilder.max_risk_amount, wit_regime]
  have r300 : round2 300 = 300 := round2_num _ 30000 (by norm_num)
  have r450 : round2 450 = 450 := round2_num _ 45000 (by norm_num)
  have r750 : round2 750 = 750 := round2_num _ 75000 (by norm_num)
  have r51382 : round2 51382 = 51382 := round2_num _ 5138200 (by norm_num)
  have r52132 : round2 52132 = 52132 := round2_num _ 5213200 (by norm_num)
  have r52432 : round2 52432 = 52432 := round2_num _ 5243200 (by norm_num)
  have r4500 : round2 4500 = 4500 := round2_num _ 450000 (by norm_num)
  have hval : wit_signal.is_valid = true := rfl
  simp only [TradeBuilder.build_trade_plan, hval]
  rw [if_neg (show ¬ (true = false) by simp)]
  norm_num [wit_signal, e0, e1, edir, ezone, estop, etg, epos, evalid, r300, r450,
    r750, r51382, r52132, r52432, r4500, round2_three_halves, round2_five_halves,
    TradeBuilder.lot_size, wit_plan, wit_zone]

/-- Witness for C1 at the concrete S3-like valid long plan. -/
theorem valid_plan_price_ordering_witness :
    wit_plan.entry_zone.lower ≤ wit_plan.entry_zone.optimal
    ∧ wit_plan.entry_zone.optimal ≤ wit_plan.entry_zone.upper
    ∧ (wit_plan.direction = .long →
        wit_plan.stop_loss ≤ wit_plan.entry_zone.optimal
        ∧ wit_plan.entry_zone.optimal ≤ wit_plan.target_1
        ∧ wit_plan.target_1 ≤ wit_plan.target_2)
    ∧ (wit_plan.direction = .short →
        wit_plan.target_2 ≤ wit_plan.target_1
        ∧ wit_plan.target_1 ≤ wit_plan.entry_zone.optimal
        ∧ wit_plan.entry_zone.optimal ≤ wit_plan.stop_loss)
    ∧ wit_builder.min_risk_reward ≤ wit_plan.risk_reward_t2 :=
  valid_plan_price_ordering wit_builder wit_signal wit_snapshot wit_regime
    wit_confluence wit_intel wit_plan
    (by norm_num [wit_builder])
    (by norm_num [wit_snapshot, wit_ohlcv, OHLCV.range])
    (by norm_num [wit_snapshot])
    (by intro o ho; simp [wit_snapshot, wit_conflict_chain] at ho; simp [ho])
    (by intro o ho; simp [wit_snapshot, wit_conflict_chain] at ho; simp [ho])
    wit_build_eq
    (by norm_num [wit_plan])

/-- A degenerate but data-model-legal snapshot: price 100, session range
0.004.  Rounding the stored fields to 2 decimals collapses the strict
orderings: the plan is valid yet stop_loss = optimal = target_1. -/
def cex_tiny_snapshot : MarketSnapshot :=
  ⟨⟨100, ⟨100, 100.004, 100, 100, 1000⟩⟩,
   ⟨100, ⟨100, 100.004, 100, 100, 1000⟩⟩, wit_conflict_chain⟩

/-- C1 counterexample: with current price 100 and session range 0.004 the
builder returns a valid plan whose stored stop_loss, optimal entry and
target_1 all round to 100.00, refuting the strict orderings
stop < optimal < T1 of the claim. -/
theorem valid_plan_strict_ordering_cex :
    (wit_builder.build_trade_plan wit_signal cex_tiny_snapshot cex_regime
        wit_confluence wit_intel).map
      (fun p => p.is_valid && decide (p.direction = .long)
        && decide (p.entry_zone.optimal ≤ p.stop_loss)
        && decide (p.target_1 ≤ p.entry_zone.optimal)) = some true := by
  have e0 : wit_builder.select_instrument .long cex_tiny_snapshot wit_intel
      = .futures := by
    simp [TradeBuilder.select_instrument, wit_intel]
  have e1 : wit_builder.get_instrument_price .futures cex_tiny_snapshot = 100 := rfl
  have edir : TradeBuilder.to_trade_direction .long = .long := rfl
  have eatr : TradeBuilder.entry_atr_estimate 100 cex_tiny_snapshot = 0.002 := by
    norm_num [TradeBuilder.entry_atr_estimate, cex_tiny_snapshot, OHLCV.range]
  have habs1 : |(3 : ℚ) / 1000| = 3 / 1000 := by
    rw [abs_of_nonneg]
    norm_num
  have habs2 : |(9 : ℚ) / 2000| = 9 / 2000 := by
    rw [abs_of_nonneg]
    norm_num
  have habs3 : |(3 : ℚ) / 400| = 3 / 400 := by
    rw [abs_of_nonneg]
    norm_num
  have rA : round2 (499997 / 5000 : ℚ) = 100 := by
    rw [round2_eq_up (499997 / 5000 : ℚ) 9999 (by norm_num) (by norm_num) (by norm_num)]
    norm_num
  have rB : round2 (4999991 / 50000 : ℚ) = 100 := by
    rw [round2_eq_up (4999991 / 50000 : ℚ) 9999 (by norm_num) (by norm_num) (by norm_num)]
    norm_num
  have rC : round2 (100 : ℚ) = 100 := round2_num _ 10000 (by norm_num)
  have ezone : wit_builder.calculate_entry_zone 100 .long cex_regime cex_tiny_snapshot
      = ⟨100, 100, 100⟩ := by
    simp only [TradeBuilder.calculate_entry_zone, eatr]
    norm_num [rA, rB, rC]
  have ebuf : TradeBuilder.sl_buffer cex_regime cex_tiny_snapshot = 3 / 1000 := by
    norm_num [TradeBuilder.sl_buffer, cex_regime, cex_tiny_snapshot, OHLCV.range]
  have hor : cex_regime.opening_range = none := rfl
  have estop : wit_builder.calculate_stop_loss 100 .long cex_regime cex_tiny_snapshot
      = 99997 / 1000 := by
    simp only [TradeBuilder.calculate_stop_loss, hor, ebuf]
    norm_num
  have rD : round2 (99997 / 1000 : ℚ) = 100 := by
    rw [round2_eq_up (99997 / 1000 : ℚ) 9999 (by norm_num) (by norm_num) (by norm_num)]
    norm_num
  have etg : wit_builder.calculate_targets 100 (99997 / 1000) .long
      = (200009 / 2000, 40003 / 400) := by
    norm_num [TradeBuilder.calculate_targets, habs1]
  have rE : round2 (200009 / 2000 : ℚ) = 100 := by
    rw [round2_eq_down (200009 / 2000 : ℚ) 10000 (by norm_num) (by norm_num)]
    norm_num
  have epos : wit_builder.calculate_position_size (3 / 1000) .futures = 5 := by
    norm_num [TradeBuilder.calculate_position_size, wit_builder,
      TradeBuilder.max_risk_amount, TradeBuilder.lot_size, pytrunc]
  have evalid : wit_builder.validate_trade (5/2) (9/40) 5 cex_regime = (true, []) := by
    norm_num [TradeBuilder.validate_trade, wit_builder,
      TradeBuilder.max_risk_amount, cex_regime]
  have hval : wit_signal.is_valid = true := rfl
  simp only [TradeBuilder.build_trade_plan, hval]
  rw [if_neg (show ¬ (true = false) by simp)]
  norm_num [wit_signal, e0, e1, edir, ezone, estop, etg, epos, evalid, rC, rD, rE,
    habs1, habs2, habs3, TradeBuilder.lot_size]

/-! ## C10 -/

/-- C10 (confirmed): every plan built with positive risk points stores
risk_reward_t1 = 1.5 and risk_reward_t2 = 2.5 exactly, and the builder
R:R rejection reason appears iff the configured minimum exceeds 2.5. -/
theorem risk_reward_constants (b : TradeBuilder) (sig : TradeSignal)
    (snap : MarketSnapshot) (regime : MarketRegime) (conf : ConfluenceScore)
    (oi : OptionsIntelligence) (p : TradePlan)
    (hbuild : b.build_trade_plan sig snap regime conf oi = some p)
    (hpos : 0 < p.risk_points) :
    p.risk_reward_t1 = 3/2 ∧ p.risk_reward_t2 = 5/2
    ∧ (PlanRejectReason.rr_below_min ∈ p.rejection_reasons
        ↔ 5/2 < b.min_risk_reward) := by
  cases hb : sig.is_valid with
  | false => simp [TradeBuilder.build_trade_plan, hb] at hbuild
  | true =>
    simp only [TradeBuilder.build_trade_plan, hb] at hbuild
    rw [if_neg (show ¬ (true = false) by simp)] at hbuild
    have hrec := (Option.some.inj hbuild).symm
    subst hrec
    dsimp only at hpos ⊢
    set it := b.select_instrument sig.direction snap oi with hit
    set price := b.get_instrument_price it snap with hprice
    set dir := TradeBuilder.to_trade_direction sig.direction with hdir
    set zone := b.calculate_entry_zone price dir regime snap with hzone
    set stopu := b.calculate_stop_loss zone.optimal dir regime snap with hstopu
    have hru : 0 < |zone.optimal - stopu| := pos_of_round2_pos hpos
    have hrr1 : (if |zone.optimal - stopu| > 0
        then |(b.calculate_targets zone.optimal stopu dir).1 - zone.optimal|
          / |zone.optimal - stopu|
        else 0) = 3/2 := by
      rw [if_pos hru, reward_t1_abs b zone.optimal stopu dir,
        mul_div_cancel_right₀ _ (ne_of_gt hru)]
      norm_num
    have hrr2 : (if |zone.optimal - stopu| > 0
        then |(b.calculate_targets zone.optimal stopu dir).2 - zone.optimal|
          / |zone.optimal - stopu|
        else 0) = 5/2 := by
      rw [if_pos hru, reward_t2_abs b zone.optimal stopu dir,
        mul_div_cancel_right₀ _ (ne_of_gt hru)]
      norm_num
    refine ⟨?_, ?_, ?_⟩
    · rw [hrr1, round2_three_halves]
    · rw [hrr2, round2_five_halves]
    · rw [validate_reasons_rr, hrr2]

/-- Witness for C10 at the concrete S3-like valid long plan (risk 300). -/
theorem risk_reward_constants_witness :
    wit_plan.risk_reward_t1 = 3/2 ∧ wit_plan.risk_reward_t2 = 5/2
    ∧ (PlanRejectReason.rr_below_min ∈ wit_plan.rejection_reasons
        ↔ 5/2 < wit_builder.min_risk_reward) :=
  risk_reward_constants wit_builder wit_signal wit_snapshot wit_regime
    wit_confluence wit_intel wit_plan wit_build_eq (by norm_num [wit_plan])

end FinWise
